import Mathlib

/-!
Position_Resolution_Analyzer.

A shallow embedding of `Reco/plugins/Position_Resolution_Analyzer.cc`: the constructor's
string-to-policy dispatch and the per-event method `analyze`.

Numbers are elements of an arbitrary linearly ordered field `α` (exact arithmetic); the
square root used for the deviation is a parameter, instantiated with `Real.sqrt` where a
statement is about real numbers.  The member counters are `int` in the source; they are
unbounded integers here, since a signed counter that overflows has no defined value.
-/

namespace PositionResolution

/-! ## `std::map<int, V>` -/

/-- An ordered map with integer keys, kept as an association list in iteration order. -/
abbrev IntMap (V : Type) := List (Int × V)

/-- The lookup `m.find(k)`; `none` stands for `m.end()`. -/
def IntMap.find {V : Type} (k : Int) : IntMap V → Option V
  | [] => none
  | (k', v) :: t => if k = k' then some v else IntMap.find k t

/-- The assignment `m[k] = v`: replaces the entry for `k` or adds it at its place in key order. -/
def IntMap.insert {V : Type} (k : Int) (v : V) : IntMap V → IntMap V
  | [] => [(k, v)]
  | (k', v') :: t =>
    if k < k' then (k, v) :: (k', v') :: t
    else if k = k' then (k, v) :: t
    else (k', v') :: IntMap.insert k v t

/-- An update in place of the object stored at `m[k]`, for a key that is present. -/
def IntMap.modify {V : Type} (k : Int) (f : V → V) : IntMap V → IntMap V
  | [] => []
  | (k', v) :: t => if k = k' then (k', f v) :: t else (k', v) :: IntMap.modify k f t

/-- The value of a counter map at `k`, reading an absent key as 0 (what `m[k]` would create). -/
def IntMap.value (m : IntMap Int) (k : Int) : Int := (IntMap.find k m).getD 0

/-- The statement `m[k]++`. -/
def IntMap.increment (k : Int) (m : IntMap Int) : IntMap Int :=
  IntMap.insert k (IntMap.value m k + 1) m

/-! ## Policies -/

/-- Modelled from the spec: the enumeration `ConsiderationMethod` is declared in a header that
is not among the sources; these are the variants the constructor assigns. -/
inductive ConsiderationMethod where
  | CONSIDERALL
  | CONSIDERSEVEN
  | CONSIDERNINETEEN
  deriving DecidableEq, Repr

/-- Modelled from the spec: the enumeration `WeightingMethod` is declared in a header that is
not among the sources; these are the variants the constructor assigns. -/
inductive WeightingMethod where
  | DEFAULTWEIGHTING
  | SQUAREDWEIGHTING
  | LINEARWEIGHTING
  | LOGWEIGHTING_35_10
  deriving DecidableEq, Repr

/-- Modelled from the spec: the enumeration `TrackFittingMethod` is declared in a header that
is not among the sources; these are the variants the constructor assigns. -/
inductive TrackFittingMethod where
  | DEFAULTFITTING
  | LINEFITANALYTICAL
  | LINEFITTGRAPHERRORS
  | GBLTRACK
  deriving DecidableEq, Repr

/-! ## Configuration and constructor -/

/-- The parameters the constructor reads from `iConfig`. -/
structure ParameterSet (α : Type) where
  considerationMethod : String
  weightingMethod : String
  fittingMethod : String
  layers_config : Int
  SensorSize : Int
  nLayers : Int
  ADC_per_MIP : List α
  useMWCReference : Bool
  alignmentParameterFiles : List String

/-- The table `config1Positions` (z-coordinates in cm). -/
def config1Positions {α : Type} [LinearOrderedField α] : List α :=
  [0, 535 / 100, 10, 15, 20, 25, 30, 35]

/-- The table `config1X0Depths` (radiation lengths). -/
def config1X0Depths {α : Type} [LinearOrderedField α] : List α :=
  [6268 / 1000, 7, 9, 9, 10, 11, 12, 13]

/-- The members the constructor sets and `analyze` only reads.  `considerationMethod` is `none`
when the constructor leaves it unassigned (no `else` branch for an unknown string). -/
structure Analyzer (α : Type) where
  considerationMethod : Option ConsiderationMethod
  weightingMethod : WeightingMethod
  fittingMethod : TrackFittingMethod
  Layer_Z_Positions : List α
  Layer_Z_X0s : List α
  ADC_per_MIP : List α
  LayersConfig : Int
  SensorSize : Int
  nLayers : Int
  useMWCReference : Bool

/-- The dispatch on the `considerationMethod` string. -/
def readConsiderationMethod (methodString : String) : Option ConsiderationMethod :=
  if methodString = "all" then some .CONSIDERALL
  else if methodString = "closest7" then some .CONSIDERSEVEN
  else if methodString = "closest19" then some .CONSIDERNINETEEN
  else none

/-- The dispatch on the `weightingMethod` string. -/
def readWeightingMethod (methodString : String) : WeightingMethod :=
  if methodString = "squaredWeighting" then .SQUAREDWEIGHTING
  else if methodString = "linearWeighting" then .LINEARWEIGHTING
  else if methodString = "logWeighting_3.5_1.0" then .LOGWEIGHTING_35_10
  else .DEFAULTWEIGHTING

/-- The dispatch on the `fittingMethod` string. -/
def readFittingMethod (methodString : String) : TrackFittingMethod :=
  if methodString = "lineAnalytical" then .LINEFITANALYTICAL
  else if methodString = "lineTGraphErrors" then .LINEFITTGRAPHERRORS
  else if methodString = "gblTrack" then .GBLTRACK
  else .DEFAULTFITTING

/-- The constructor `Position_Resolution_Analyzer(iConfig)`, as far as it sets the members
that `analyze` reads. -/
def Position_Resolution_Analyzer {α : Type} [LinearOrderedField α]
    (iConfig : ParameterSet α) : Analyzer α :=
  { considerationMethod := readConsiderationMethod iConfig.considerationMethod
    weightingMethod := readWeightingMethod iConfig.weightingMethod
    fittingMethod := readFittingMethod iConfig.fittingMethod
    LayersConfig := iConfig.layers_config
    Layer_Z_Positions := if iConfig.layers_config = 1 then config1Positions else config1Positions
    Layer_Z_X0s := if iConfig.layers_config = 1 then config1X0Depths else config1X0Depths
    SensorSize := iConfig.SensorSize
    nLayers := iConfig.nLayers
    ADC_per_MIP := iConfig.ADC_per_MIP
    useMWCReference := iConfig.useMWCReference }

/-! ## Event input -/

/-- One entry of the raw hit collection; only its layer is read by `analyze`, the cell and
energy travel with the hit into the accumulator. -/
structure Rechit (α : Type) where
  layer : Int
  cell : Int × Int
  energy : α

/-- The run data record `rd`. -/
structure RunData (α : Type) where
  configuration : Int
  run : Int
  event : Int
  energy : α
  hasDanger : Bool
  runType : Int

/-- One plane of the reference tracker. -/
structure WireChamberData (α : Type) where
  x : α
  y : α
  z : α
  res_x : α
  res_y : α
  goodMeasurement : Bool

/-- The reference-tracker record `dwcs`; it carries the four planes `at(0)` to `at(3)`. -/
structure WireChambers (α : Type) where
  at0 : WireChamberData α
  at1 : WireChamberData α
  at2 : WireChamberData α
  at3 : WireChamberData α

/-- What `analyze` obtains from the framework for one event. -/
structure Event (α : Type) where
  id : Int
  rd : RunData α
  dwcs : WireChambers α
  Rechits : List (Rechit α)

/-! ## Collaborating classes -/

/-- Modelled from the spec: the class `SensorHitMap` is declared in a header that is not among
the sources.  An object is represented by the calls made on it: the constructor argument and
the arguments of each setter.  `none` in `labZ`, `X0` or `particleEnergy` is an argument that
was read outside its table. -/
structure SensorHitMap (α : Type) where
  layer : Int
  labZ : Option α := none
  X0 : Option α := none
  alignmentParameters : Option (α × α × α × α × α × α) := none
  sensorSize : Option Int := none
  particleEnergy : Option α := none
  hits : List (Rechit α × α) := []
  centerPosition : Option (Option ConsiderationMethod × WeightingMethod) := none
  centerHitPosition : Option (α × α × α × α) := none
  residualResolution : Option α := none

/-- Modelled from the spec: the class `ParticleTrack` is declared in a header that is not among
the sources.  An object is represented by its reference sensor, the sensors added as fit
points in call order, and the method passed to `fitTrack`. -/
structure ParticleTrack (α : Type) where
  referenceSensor : Option (SensorHitMap α) := none
  fitPoints : List (SensorHitMap α) := []
  fitMethod : Option TrackFittingMethod := none

/-- The first argument of `AlignmentParameters::getValue`: the run number for physical layers,
the beam energy for the reference-tracker planes. -/
inductive AlignmentKey (α : Type) where
  | ofRun (run : Int)
  | ofEnergy (energy : α)

/-- Modelled from the spec: the query functions of `SensorHitMap`, `ParticleTrack`,
`AlignmentParameters` and `gblhelpers`, and `sqrt`, are defined outside the sources; they are
parameters of the embedding. -/
structure External (α : Type) where
  getValue : AlignmentKey α → Int → α
  computeEnergyLoss : α → α → α
  sqrt : α → α
  getTotalEnergy : SensorHitMap α → α
  getTotalClusterEnergy : SensorHitMap α → Int → α
  getTotalWeight : SensorHitMap α → α
  getLabZ : SensorHitMap α → α
  getIntrinsicHitZPosition : SensorHitMap α → α
  getX0 : SensorHitMap α → α
  getLabHitPosition : SensorHitMap α → α × α
  getCenterOfClosestCell : SensorHitMap α → α × α → α × α
  getHitPositionError : SensorHitMap α → α × α
  getSumOfEnergies : ParticleTrack α → α
  calculateReferenceXY : ParticleTrack α → α × α
  calculateReferenceErrorXY : ParticleTrack α → α × α
  getChi2 : ParticleTrack α → Int → α

/-! ## Mutable members -/

/-- One entry of `outTree`: the values of the branch variables when `Fill` is called. -/
structure TreeEntry (α : Type) where
  configuration : Int
  eventId : Int
  eventCounter : Int
  run : Int
  layer : Int
  energy : α
  layerEnergy : α
  sumEnergy : α
  x_true : α
  x_true_to_closest_cell : α
  x_true_err : α
  y_true : α
  y_true_to_closest_cell : α
  y_true_err : α
  chi2_x : α
  chi2_y : α
  x_predicted : α
  x_predicted_to_closest_cell : α
  x_predicted_err : α
  y_predicted : α
  y_predicted_to_closest_cell : α
  y_predicted_err : α
  deltaX : α
  deltaY : α
  deviation : α
  average_x_predicted : α
  average_y_predicted : α
  average_x_true : α
  average_y_true : α
  average_deltaX : α
  average_deltaY : α

/-- The members `analyze` writes, the member map `Sensors`, the two fit counters and the
entries written to `outTree` so far. -/
structure State (α : Type) where
  successfulFitCounter : IntMap Int
  failedFitCounter : IntMap Int
  Sensors : IntMap (SensorHitMap α)
  outTree : List (TreeEntry α)
  configuration : Int
  evId : Int
  eventCounter : Int
  run : Int
  layer : Int
  energy : α
  layerWeight : α
  layerEnergy : α
  layerClusterEnergy : α
  sumFitWeights : α
  sumEnergy : α
  chi2_x : α
  chi2_y : α
  x_predicted : α
  x_predicted_err : α
  y_predicted : α
  y_predicted_err : α
  x_true : α
  x_true_err : α
  y_true : α
  y_true_err : α
  deltaX : α
  deltaY : α
  x_predicted_to_closest_cell : α
  y_predicted_to_closest_cell : α
  x_true_to_closest_cell : α
  y_true_to_closest_cell : α
  layerZ_cm : α
  layerZ_X0 : α
  deviation : α
  average_x_predicted : α
  average_y_predicted : α
  average_x_true : α
  average_y_true : α
  average_deltaX : α
  average_deltaY : α
  useMWC : Int

/-- The values `outTree->Fill()` stores: each branch with the member bound to it. -/
def State.branches {α : Type} (st : State α) : TreeEntry α :=
  { configuration := st.configuration
    eventId := st.evId
    eventCounter := st.eventCounter
    run := st.run
    layer := st.layer
    energy := st.energy
    layerEnergy := st.layerEnergy
    sumEnergy := st.sumEnergy
    x_true := st.x_true
    x_true_to_closest_cell := st.x_true_to_closest_cell
    x_true_err := st.x_true_err
    y_true := st.y_true
    y_true_to_closest_cell := st.y_true_to_closest_cell
    y_true_err := st.y_true_err
    chi2_x := st.chi2_x
    chi2_y := st.chi2_y
    x_predicted := st.x_predicted
    x_predicted_to_closest_cell := st.x_predicted_to_closest_cell
    x_predicted_err := st.x_predicted_err
    y_predicted := st.y_predicted
    y_predicted_to_closest_cell := st.y_predicted_to_closest_cell
    y_predicted_err := st.y_predicted_err
    deltaX := st.deltaX
    deltaY := st.deltaY
    deviation := st.deviation
    average_x_predicted := st.average_x_predicted
    average_y_predicted := st.average_y_predicted
    average_x_true := st.average_x_true
    average_y_true := st.average_y_true
    average_deltaX := st.average_deltaX
    average_deltaY := st.average_deltaY }

/-- The call `outTree->Fill()`. -/
def State.Fill {α : Type} (st : State α) : State α :=
  { st with outTree := st.outTree ++ [st.branches] }

/-- A just-constructed analyzer: both maps and the tree are empty, `eventCounter` is 0; the
members the constructor leaves unset are taken as 0. -/
def State.fresh {α : Type} [LinearOrderedField α] : State α :=
  { successfulFitCounter := [], failedFitCounter := [], Sensors := [], outTree := []
    configuration := 0, evId := 0, eventCounter := 0, run := 0, layer := 0, energy := 0
    layerWeight := 0, layerEnergy := 0, layerClusterEnergy := 0, sumFitWeights := 0
    sumEnergy := 0, chi2_x := 0, chi2_y := 0
    x_predicted := 0, x_predicted_err := 0, y_predicted := 0, y_predicted_err := 0
    x_true := 0, x_true_err := 0, y_true := 0, y_true_err := 0, deltaX := 0, deltaY := 0
    x_predicted_to_closest_cell := 0, y_predicted_to_closest_cell := 0
    x_true_to_closest_cell := 0, y_true_to_closest_cell := 0
    layerZ_cm := 0, layerZ_X0 := 0, deviation := 0
    average_x_predicted := 0, average_y_predicted := 0, average_x_true := 0
    average_y_true := 0, average_deltaX := 0, average_deltaY := 0, useMWC := 0 }

/-! ## `analyze`, step by step -/

/-- The exit of `analyze` that was taken: one of the three early `return`s or the end of the
function body. -/
inductive ExitPath where
  | dangerSkip
  | unmappedRunSkip
  | trackerNotGoodSkip
  | completed
  deriving DecidableEq, Repr

/-- The read `table[i]` for an `int` index; `none` when `i` is outside the table. -/
def tableRead {α : Type} (table : List α) (i : Int) : Option α :=
  if 0 ≤ i then table[i.toNat]? else none

/-- The loop `for (_x = 0; _x < layer; _x++) X0sum += Layer_Z_X0s[_x]`, started at 0; `none`
when one of the reads is outside the table. -/
def X0sum {α : Type} [LinearOrderedField α] (Layer_Z_X0s : List α) (layer : Int) : Option α :=
  (List.range layer.toNat).foldl
    (fun acc _x =>
      match acc, Layer_Z_X0s[_x]? with
      | some a, some x => some (a + x)
      | _, _ => none)
    (some 0)

/-- The entry of `analyze` up to the first test: the run data is copied into the members. -/
def readRunData {α : Type} (st : State α) (event : Event α) : State α :=
  { st with
    configuration := event.rd.configuration
    evId := event.id
    run := event.rd.run
    eventCounter := event.rd.event
    energy := event.rd.energy }

/-- The initialisation of both fit counters for a run not seen before. -/
def initFitCounters {α : Type} (st : State α) : State α :=
  match IntMap.find st.run st.successfulFitCounter with
  | none =>
    { st with
      failedFitCounter := IntMap.insert st.run 0 st.failedFitCounter
      successfulFitCounter := IntMap.insert st.run 0 st.successfulFitCounter }
  | some _ => st

/-- The accumulator created for a layer at its first hit, with the setters called on it. -/
def newLayerSensor {α : Type} [LinearOrderedField α] (self : Analyzer α) (ext : External α)
    (run : Int) (energy : α) (layer : Int) : SensorHitMap α :=
  { layer := layer
    labZ := tableRead self.Layer_Z_Positions (layer - 1)
    X0 := tableRead self.Layer_Z_X0s (layer - 1)
    alignmentParameters :=
      some (ext.getValue (.ofRun run) (100 * layer + 21), 0, 0,
        ext.getValue (.ofRun run) (100 * layer + 11),
        ext.getValue (.ofRun run) (100 * layer + 12), 0)
    sensorSize := some self.SensorSize
    particleEnergy :=
      (X0sum self.Layer_Z_X0s layer).map (fun X => energy - ext.computeEnergyLoss X energy) }

/-- The call `addHit(Rechit, weight)`. -/
def SensorHitMap.addHit {α : Type} (Rechit : Rechit α) (weight : α) (s : SensorHitMap α) :
    SensorHitMap α :=
  { s with hits := s.hits ++ [(Rechit, weight)] }

/-- The body of the loop over the raw hits (step 1). -/
def fillRechit {α : Type} [LinearOrderedField α] (self : Analyzer α) (ext : External α)
    (st : State α) (Rechit : Rechit α) : State α :=
  let layer := Rechit.layer
  let Sensors :=
    match IntMap.find layer st.Sensors with
    | none => IntMap.insert layer (newLayerSensor self ext st.run st.energy layer) st.Sensors
    | some _ => st.Sensors
  { st with layer := layer, Sensors := IntMap.modify layer (SensorHitMap.addHit Rechit 1) Sensors }

/-- Step 1: the loop over the raw hit collection. -/
def fillRechits {α : Type} [LinearOrderedField α] (self : Analyzer α) (ext : External α)
    (st : State α) (Rechits : List (Rechit α)) : State α :=
  Rechits.foldl (fillRechit self ext) st

/-- The test on the reference tracker: planes 0, 1 and 3 are good measurements. -/
def trackerGood {α : Type} (dwcs : WireChambers α) : Bool :=
  dwcs.at0.goodMeasurement && dwcs.at1.goodMeasurement && dwcs.at3.goodMeasurement

/-- The sum of the layers' total energies, stored in `sumEnergy`. -/
def sumEnergies {α : Type} [LinearOrderedField α] (ext : External α) (st : State α) : State α :=
  { st with sumEnergy := st.Sensors.foldl (fun acc it => acc + ext.getTotalEnergy it.2) 0 }

/-- The call `calculateCenterPosition(considerationMethod, weightingMethod)`. -/
def SensorHitMap.calculateCenterPosition {α : Type} (c : Option ConsiderationMethod)
    (w : WeightingMethod) (s : SensorHitMap α) : SensorHitMap α :=
  { s with centerPosition := some (c, w) }

/-- Step 2: the impact point of every layer is calculated. -/
def step2 {α : Type} (self : Analyzer α) (st : State α) : State α :=
  { st with
    Sensors := st.Sensors.map (fun it =>
      (it.1, SensorHitMap.calculateCenterPosition self.considerationMethod
        self.weightingMethod it.2)) }

/-- The pseudo-layer created for one plane of the reference tracker. -/
def mwcSensor {α : Type} [LinearOrderedField α] (ext : External α) (energy : α) (layer : Int)
    (plane : WireChamberData α) : SensorHitMap α :=
  { layer := layer
    labZ := some plane.z
    X0 := some (1 / 1000)
    centerHitPosition := some (plane.x / 10, plane.y / 10, plane.res_x / 10, plane.res_y / 10)
    particleEnergy := some energy
    alignmentParameters :=
      some (ext.getValue (.ofEnergy energy) (100 * layer + 21), 0, 0,
        ext.getValue (.ofEnergy energy) (100 * layer + 11),
        ext.getValue (.ofEnergy energy) (100 * layer + 12), 0)
    residualResolution := some (plane.res_x / 10) }

/-- Step 3: with `useMWCReference`, planes 0, 1 and 3 become layers `nLayers+1..nLayers+3`. -/
def step3 {α : Type} [LinearOrderedField α] (self : Analyzer α) (ext : External α)
    (st : State α) (dwcs : WireChambers α) : State α :=
  if self.useMWCReference then
    let Sensors := IntMap.insert (self.nLayers + 1)
      (mwcSensor ext st.energy (self.nLayers + 1) dwcs.at0) st.Sensors
    let Sensors := IntMap.insert (self.nLayers + 2)
      (mwcSensor ext st.energy (self.nLayers + 2) dwcs.at1) Sensors
    let Sensors := IntMap.insert (self.nLayers + 3)
      (mwcSensor ext st.energy (self.nLayers + 3) dwcs.at3) Sensors
    { st with useMWC := 1, Sensors := Sensors }
  else
    { st with useMWC := 0 }

/-- The call `addFitPoint(sensor)`. -/
def ParticleTrack.addFitPoint {α : Type} (sensor : SensorHitMap α) (t : ParticleTrack α) :
    ParticleTrack α :=
  { t with fitPoints := t.fitPoints ++ [sensor] }

/-- The body of the inner loop of step 4, for reference layer `i` and the entry `jt`. -/
def addEligible {α : Type} (self : Analyzer α) (i : Int) (track : ParticleTrack α)
    (jt : Int × SensorHitMap α) : ParticleTrack α :=
  let j := jt.1
  if i = j then track
  else if i ≤ self.nLayers then
    if self.useMWCReference && decide (j > self.nLayers) then track.addFitPoint jt.2
    else if !self.useMWCReference && decide (j ≤ self.nLayers) then track.addFitPoint jt.2
    else track
  else
    if self.useMWCReference && decide (j ≤ self.nLayers) then track.addFitPoint jt.2
    else track

/-- The body of the outer loop of step 4: the track with `Sensors[i]` as reference sensor
(the entry the iterator points at), the eligible layers as fit points, and the fit. -/
def fillTrack {α : Type} (self : Analyzer α) (Sensors : IntMap (SensorHitMap α))
    (it : Int × SensorHitMap α) : ParticleTrack α :=
  let track : ParticleTrack α := { referenceSensor := some it.2 }
  let track := Sensors.foldl (addEligible self it.1) track
  { track with fitMethod := some self.fittingMethod }

/-- Step 4: the local map `Tracks`, one track per entry of `Sensors`. -/
def fillTracks {α : Type} (self : Analyzer α) (Sensors : IntMap (SensorHitMap α)) :
    IntMap (ParticleTrack α) :=
  Sensors.foldl (fun Tracks it => IntMap.insert it.1 (fillTrack self Sensors it) Tracks) []

/-- The five sums local to step 5. -/
structure Sums (α : Type) where
  sum_x_predicted : α
  sum_y_predicted : α
  sum_x_true : α
  sum_y_true : α
  sum_energy : α

/-- The test for the all-zero prediction: `!(x != 0 || y != 0 || x_err != 0 || y_err != 0)`. -/
def fitFailed {α : Type} [LinearOrderedField α] (st : State α) : Bool :=
  !(decide (st.x_predicted ≠ 0) || decide (st.y_predicted ≠ 0)
    || decide (st.x_predicted_err ≠ 0) || decide (st.y_predicted_err ≠ 0))

/-- The first part of the body of step 5, up to the test on the prediction. -/
def predictLayer {α : Type} [LinearOrderedField α] (ext : External α)
    (track : ParticleTrack α) (it : Int × SensorHitMap α) (p : State α × Sums α) :
    State α × Sums α :=
  let st := p.1
  let sums := p.2
  let layerEnergy := ext.getTotalEnergy it.2
  let position_predicted := ext.calculateReferenceXY track
  let position_predicted_to_closest_cell := ext.getCenterOfClosestCell it.2 position_predicted
  let position_error_predicted := ext.calculateReferenceErrorXY track
  ({ st with
     layer := it.1
     sumFitWeights := ext.getSumOfEnergies track
     layerEnergy := layerEnergy
     layerClusterEnergy := ext.getTotalClusterEnergy it.2 (-1)
     layerWeight := ext.getTotalWeight it.2
     layerZ_cm := ext.getLabZ it.2 + ext.getIntrinsicHitZPosition it.2
     layerZ_X0 := st.layerZ_X0 + ext.getX0 it.2
     x_predicted := position_predicted.1
     y_predicted := position_predicted.2
     chi2_x := ext.getChi2 track 1
     chi2_y := ext.getChi2 track 2
     x_predicted_to_closest_cell := position_predicted_to_closest_cell.1
     y_predicted_to_closest_cell := position_predicted_to_closest_cell.2
     x_predicted_err := position_error_predicted.1
     y_predicted_err := position_error_predicted.2 },
   { sums with
     sum_energy := sums.sum_energy + layerEnergy
     sum_x_predicted := sums.sum_x_predicted + position_predicted.1 * layerEnergy
     sum_y_predicted := sums.sum_y_predicted + position_predicted.2 * layerEnergy })

/-- The second part of the body of step 5, for a prediction that is not all-zero, up to the
running averages. -/
def compareLayer {α : Type} [LinearOrderedField α] (ext : External α)
    (it : Int × SensorHitMap α) (p : State α × Sums α) : State α × Sums α :=
  let st := p.1
  let sums := p.2
  let position_true := ext.getLabHitPosition it.2
  let x_true := position_true.1
  let y_true := position_true.2
  let sum_x_true := sums.sum_x_true + x_true * st.layerEnergy
  let sum_y_true := sums.sum_y_true + y_true * st.layerEnergy
  let position_true_to_closest_cell := ext.getCenterOfClosestCell it.2 position_true
  let position_error_true := ext.getHitPositionError it.2
  let deltaX := x_true - st.x_predicted
  let deltaY := y_true - st.y_predicted
  let deviation := ext.sqrt (deltaX ^ 2 + deltaY ^ 2)
  let average_x_predicted := if st.layer ≤ 6 then sums.sum_x_predicted / sums.sum_energy else -999
  let average_y_predicted := if st.layer ≤ 6 then sums.sum_y_predicted / sums.sum_energy else -999
  let average_x_true := if st.layer ≤ 6 then sum_x_true / sums.sum_energy else -999
  let average_y_true := if st.layer ≤ 6 then sum_y_true / sums.sum_energy else -999
  ({ st with
      successfulFitCounter := IntMap.increment st.run st.successfulFitCounter
      x_true := x_true
      y_true := y_true
      x_true_to_closest_cell := position_true_to_closest_cell.1
      y_true_to_closest_cell := position_true_to_closest_cell.2
      x_true_err := position_error_true.1
      y_true_err := position_error_true.2
      deltaX := deltaX
      deltaY := deltaY
      deviation := deviation
      average_x_predicted := average_x_predicted
      average_y_predicted := average_y_predicted
      average_x_true := average_x_true
      average_y_true := average_y_true
      average_deltaX := if st.layer ≤ 6 then average_x_true - average_x_predicted else -999
      average_deltaY := if st.layer ≤ 6 then average_y_true - average_y_predicted else -999 },
   { sums with sum_x_true := sum_x_true, sum_y_true := sum_y_true })

/-- The end of the body of step 5: `if (layer==1 && chi2_x<10. && chi2_y<10.) outTree->Fill()`. -/
def fillSelected {α : Type} [LinearOrderedField α] (st : State α) : State α :=
  if st.layer = 1 ∧ st.chi2_x < 10 ∧ st.chi2_y < 10 then st.Fill else st

/-- The body of the loop of step 5 for the entry `it`, given the track `Tracks[layer]`. -/
def step5Body {α : Type} [LinearOrderedField α] (ext : External α)
    (track : ParticleTrack α) (it : Int × SensorHitMap α) (p : State α × Sums α) :
    State α × Sums α :=
  let q := predictLayer ext track it p
  if fitFailed q.1 then
    ({ q.1 with failedFitCounter := IntMap.increment q.1.run q.1.failedFitCounter }, q.2)
  else
    let r := compareLayer ext it q
    (fillSelected r.1, r.2)

/-- The loop of step 5 over the entries `Sensors`.  `Tracks[layer]` is a lookup in the local
map; `none` is the run-time error of an absent track (a null pointer). -/
def step5Loop {α : Type} [LinearOrderedField α] (ext : External α)
    (Tracks : IntMap (ParticleTrack α)) (Sensors : IntMap (SensorHitMap α))
    (p : State α × Sums α) : Option (State α × Sums α) :=
  Sensors.foldlM
    (fun p it => (IntMap.find it.1 Tracks).map (fun track => step5Body ext track it p)) p

/-- The five sums before the loop of step 5. -/
def Sums.zero {α : Type} [LinearOrderedField α] : Sums α :=
  { sum_x_predicted := 0, sum_y_predicted := 0, sum_x_true := 0, sum_y_true := 0
    sum_energy := 0 }

/-- The state in which step 4 starts: run data read, counters initialised, raw hits filled,
energies summed, impact points calculated and reference-tracker layers added. -/
def prepare {α : Type} [LinearOrderedField α] (self : Analyzer α) (ext : External α)
    (st : State α) (event : Event α) : State α :=
  step3 self ext
    (step2 self
      (sumEnergies ext
        (fillRechits self ext (initFitCounters (readRunData st event)) event.Rechits)))
    event.dwcs

/-- The method `analyze(event, setup)`: the exit taken and the members afterwards; `none` is a
run-time error. -/
def analyze {α : Type} [LinearOrderedField α] (self : Analyzer α) (ext : External α)
    (st : State α) (event : Event α) : Option (ExitPath × State α) :=
  let st1 := readRunData st event
  if event.rd.hasDanger then some (.dangerSkip, st1)
  else if st1.run = -1 then some (.unmappedRunSkip, st1)
  else
    let st2 := fillRechits self ext (initFitCounters st1) event.Rechits
    if !trackerGood event.dwcs then some (.trackerNotGoodSkip, st2)
    else
      let st3 := step3 self ext (step2 self (sumEnergies ext st2)) event.dwcs
      let Tracks := fillTracks self st3.Sensors
      (step5Loop ext Tracks st3.Sensors ({ st3 with layerZ_X0 := 0 }, Sums.zero)).map
        (fun p => (.completed, { p.1 with Sensors := [] }))

/-! ## Well-formed maps and sample inputs -/

/-- What makes the list `Sensors` a `std::map` built by `analyze`: strictly increasing keys,
and every accumulator stored under the layer it was constructed with. -/
def SensorsWF {α : Type} (Sensors : IntMap (SensorHitMap α)) : Prop :=
  Sensors.Pairwise (fun a b => a.1 < b.1) ∧ ∀ it ∈ Sensors, it.2.layer = it.1

/-- The condition under which `analyze` leaves through one of its three early returns: the
danger flag is set, or the run is -1, or not all of the planes 0, 1 and 3 of the reference
tracker are good measurements. -/
def skipped {α : Type} (event : Event α) : Prop :=
  event.rd.hasDanger = true ∨ event.rd.run = -1 ∨
    ¬ (event.dwcs.at0.goodMeasurement = true ∧ event.dwcs.at1.goodMeasurement = true ∧
      event.dwcs.at3.goodMeasurement = true)

/-- A stand-in for the collaborating classes, used to run the embedding on concrete events:
a layer's energy is the weighted sum of its hits, its position the externally set centre or
else the cell of its first hit, and a track with fewer than two fit points predicts the
all-zero tuple while any other track predicts the position of its first fit point with unit
errors. -/
def sampleExternal {α : Type} [LinearOrderedField α] (sqrt : α → α) : External α :=
  { getValue := fun _ _ => 0
    computeEnergyLoss := fun _ _ => 0
    sqrt := sqrt
    getTotalEnergy := fun s => (s.hits.map (fun h => h.1.energy * h.2)).sum
    getTotalClusterEnergy := fun _ _ => 0
    getTotalWeight := fun s => (s.hits.map (fun h => h.2)).sum
    getLabZ := fun s => s.labZ.getD 0
    getIntrinsicHitZPosition := fun _ => 0
    getX0 := fun s => s.X0.getD 0
    getLabHitPosition := fun s =>
      match s.centerHitPosition, s.hits with
      | some c, _ => (c.1, c.2.1)
      | none, h :: _ => ((h.1.cell.1 : α), (h.1.cell.2 : α))
      | none, [] => (0, 0)
    getCenterOfClosestCell := fun _ q => q
    getHitPositionError := fun _ => (1, 1)
    getSumOfEnergies := fun t => (t.fitPoints.map (fun s => (s.hits.map (fun h => h.2)).sum)).sum
    calculateReferenceXY := fun t =>
      match t.fitPoints with
      | s :: _ :: _ =>
        (match s.centerHitPosition, s.hits with
          | some c, _ => (c.1, c.2.1)
          | none, h :: _ => ((h.1.cell.1 : α), (h.1.cell.2 : α))
          | none, [] => (0, 0))
      | _ => (0, 0)
    calculateReferenceErrorXY := fun t =>
      match t.fitPoints with
      | _ :: _ :: _ => (1, 1)
      | _ => (0, 0)
    getChi2 := fun _ _ => 0 }

/-- A reference-tracker plane at the origin with the given flag. -/
def samplePlane {α : Type} [LinearOrderedField α] (good : Bool) : WireChamberData α :=
  { x := 0, y := 0, z := 0, res_x := 1, res_y := 1, goodMeasurement := good }

/-- An event of run 1 at 100 GeV with the given raw hits and the given flags. -/
def sampleEvent {α : Type} [LinearOrderedField α] (hasDanger good0 good1 good2 good3 : Bool)
    (Rechits : List (Rechit α)) : Event α :=
  { id := 1
    rd := { configuration := 1, run := 1, event := 1, energy := 100, hasDanger := hasDanger
            runType := 0 }
    dwcs := { at0 := samplePlane good0, at1 := samplePlane good1, at2 := samplePlane good2
              at3 := samplePlane good3 }
    Rechits := Rechits }

/-- An analyzer configured from the string names of the policies. -/
def sampleAnalyzer {α : Type} [LinearOrderedField α] (nLayers : Int) (useMWCReference : Bool) :
    Analyzer α :=
  Position_Resolution_Analyzer
    { considerationMethod := "all", weightingMethod := "linearWeighting"
      fittingMethod := "lineAnalytical", layers_config := 1, SensorSize := 128
      nLayers := nLayers, ADC_per_MIP := [], useMWCReference := useMWCReference
      alignmentParameterFiles := [] }

/-- Four raw hits, one in each of the layers 1 to 4. -/
def sampleHits {α : Type} [LinearOrderedField α] : List (Rechit α) :=
  [{ layer := 1, cell := (2, 3), energy := 5 }, { layer := 2, cell := (4, 1), energy := 7 },
   { layer := 3, cell := (1, 1), energy := 2 }, { layer := 4, cell := (8, 9), energy := 3 }]

/-- The all-zero prediction of a track: position (0, 0) with errors (0, 0). -/
def allZero {α : Type} [LinearOrderedField α] (ext : External α) (track : ParticleTrack α) :
    Prop :=
  (ext.calculateReferenceXY track).1 = 0 ∧ (ext.calculateReferenceXY track).2 = 0 ∧
    (ext.calculateReferenceErrorXY track).1 = 0 ∧ (ext.calculateReferenceErrorXY track).2 = 0

instance allZero.decidable {α : Type} [LinearOrderedField α] (ext : External α)
    (track : ParticleTrack α) : Decidable (allZero ext track) := by
  unfold allZero
  infer_instance

/-- The invariant of the members between events: `Sensors` is a well-formed map, and a run
without a successful-fit counter has no failed-fit counter either. -/
def StateWF {α : Type} (st : State α) : Prop :=
  SensorsWF st.Sensors ∧
    ∀ r, IntMap.find r st.successfulFitCounter = none → IntMap.find r st.failedFitCounter = none

/-- The loop of step 5 with the track of each entry given by `tr` instead of a lookup. -/
def step5Pure {α : Type} [LinearOrderedField α] (ext : External α)
    (tr : Int × SensorHitMap α → ParticleTrack α) (Sensors : IntMap (SensorHitMap α))
    (p : State α × Sums α) : State α × Sums α :=
  Sensors.foldl (fun p it => step5Body ext (tr it) it p) p

/-- The members and sums with which the loop of step 5 starts inside `analyze`. -/
def loopStart {α : Type} [LinearOrderedField α] (self : Analyzer α) (ext : External α)
    (st : State α) (event : Event α) : State α × Sums α :=
  ({ prepare self ext st event with layerZ_X0 := 0 }, Sums.zero)

/-- The state of the loop of step 5 inside `analyze` once the entries `handled` (an initial
segment of `Sensors`) have been handled. -/
def afterLayers {α : Type} [LinearOrderedField α] (self : Analyzer α) (ext : External α)
    (st : State α) (event : Event α) (handled : IntMap (SensorHitMap α)) :
    Option (State α × Sums α) :=
  step5Loop ext (fillTracks self (prepare self ext st event).Sensors) handled
    (loopStart self ext st event)

/-- The energy-weighted mean of `position` over the layers in `layers`. -/
def weightedMean {α : Type} [LinearOrderedField α] (ext : External α)
    (position : Int × SensorHitMap α → α) (layers : IntMap (SensorHitMap α)) : α :=
  (layers.map (fun jt => position jt * ext.getTotalEnergy jt.2)).sum /
    (layers.map (fun jt => ext.getTotalEnergy jt.2)).sum

/-- The condition under which the inner loop of step 4 adds layer `j` to the track of
reference layer `i`. -/
def eligible {α : Type} (self : Analyzer α) (i j : Int) : Bool :=
  decide (i ≠ j) &&
    (if i ≤ self.nLayers then
      (self.useMWCReference && decide (j > self.nLayers)) ||
        (!self.useMWCReference && decide (j ≤ self.nLayers))
    else self.useMWCReference && decide (j ≤ self.nLayers))

/-- The condition under which the body of step 5 writes an entry to the tree for `it`, whose
track is `track`: layer 1, a prediction that is not all-zero, and both chi-squares below 10. -/
def writesEntry {α : Type} [LinearOrderedField α] (ext : External α)
    (track : ParticleTrack α) (it : Int × SensorHitMap α) : Prop :=
  it.1 = 1 ∧ ¬ allZero ext track ∧ ext.getChi2 track 1 < 10 ∧ ext.getChi2 track 2 < 10

/-- The hits of layer `layer` in the raw hit collection, in order, each with the weight 1.0
with which step 1 adds it. -/
def hitsOfLayer {α : Type} [LinearOrderedField α] (layer : Int) (Rechits : List (Rechit α)) :
    List (Rechit α × α) :=
  (Rechits.filter (fun Rechit => decide (Rechit.layer = layer))).map (fun Rechit => (Rechit, 1))

/-- The configuration from which `sampleAnalyzer` is constructed. -/
def sampleParameterSet {α : Type} [LinearOrderedField α] (nLayers : Int)
    (useMWCReference : Bool) : ParameterSet α :=
  { considerationMethod := "all", weightingMethod := "linearWeighting"
    fittingMethod := "lineAnalytical", layers_config := 1, SensorSize := 128
    nLayers := nLayers, ADC_per_MIP := [], useMWCReference := useMWCReference
    alignmentParameterFiles := [] }

/-! ## The map operations -/

theorem IntMap.find_insert {V : Type} (k k' : Int) (v : V) (m : IntMap V) :
    IntMap.find k' (IntMap.insert k v m) = if k' = k then some v else IntMap.find k' m := by
  induction m with
  | nil => simp [IntMap.insert, IntMap.find]
  | cons e t ih =>
    obtain ⟨k0, v0⟩ := e
    by_cases h1 : k < k0
    · simp [IntMap.insert, IntMap.find, h1]
    · by_cases h2 : k = k0
      · subst h2
        by_cases h3 : k' = k <;> simp [IntMap.insert, IntMap.find, h3]
      · simp only [IntMap.insert, if_neg h1, if_neg h2, IntMap.find, ih]
        by_cases h3 : k' = k0
        · have : k' ≠ k := fun h => h2 (h ▸ h3)
          simp [h3, Ne.symm h2]
        · simp [h3]

theorem IntMap.mem_insert {V : Type} (k : Int) (v : V) (m : IntMap V) (e : Int × V)
    (h : e ∈ IntMap.insert k v m) : e = (k, v) ∨ e ∈ m := by
  induction m with
  | nil => simpa [IntMap.insert] using h
  | cons e0 t ih =>
    obtain ⟨k0, v0⟩ := e0
    by_cases h1 : k < k0
    · simp only [IntMap.insert, if_pos h1, List.mem_cons] at h
      simpa using h
    · by_cases h2 : k = k0
      · simp only [IntMap.insert, if_neg h1, if_pos h2, List.mem_cons] at h
        rcases h with h | h
        · exact Or.inl h
        · exact Or.inr (List.mem_cons_of_mem _ h)
      · simp only [IntMap.insert, if_neg h1, if_neg h2, List.mem_cons] at h
        rcases h with h | h
        · exact Or.inr (h ▸ List.mem_cons_self _ _)
        · rcases ih h with h | h
          · exact Or.inl h
          · exact Or.inr (List.mem_cons_of_mem _ h)

theorem IntMap.pairwise_insert {V : Type} (k : Int) (v : V) (m : IntMap V)
    (h : m.Pairwise (fun a b => a.1 < b.1)) :
    (IntMap.insert k v m).Pairwise (fun a b => a.1 < b.1) := by
  induction m with
  | nil => simp [IntMap.insert]
  | cons e0 t ih =>
    obtain ⟨k0, v0⟩ := e0
    rw [List.pairwise_cons] at h
    by_cases h1 : k < k0
    · simp only [IntMap.insert, if_pos h1]
      refine List.pairwise_cons.2 ⟨?_, List.pairwise_cons.2 h⟩
      intro a ha
      rcases List.mem_cons.1 ha with ha | ha
      · simpa [ha] using h1
      · exact lt_trans h1 (h.1 a ha)
    · by_cases h2 : k = k0
      · simp only [IntMap.insert, if_neg h1, if_pos h2]
        refine List.pairwise_cons.2 ⟨?_, h.2⟩
        intro a ha
        simpa [h2] using h.1 a ha
      · simp only [IntMap.insert, if_neg h1, if_neg h2]
        refine List.pairwise_cons.2 ⟨?_, ih h.2⟩
        intro a ha
        rcases IntMap.mem_insert k v t a ha with ha | ha
        · have : k0 < k := lt_of_le_of_ne (not_lt.1 h1) (Ne.symm h2)
          simpa [ha] using this
        · exact h.1 a ha

theorem IntMap.mem_modify {V : Type} (k : Int) (f : V → V) (m : IntMap V) (e : Int × V)
    (h : e ∈ IntMap.modify k f m) : ∃ e0 ∈ m, e.1 = e0.1 ∧ (e.2 = e0.2 ∨ e.2 = f e0.2) := by
  induction m with
  | nil => simp [IntMap.modify] at h
  | cons e0 t ih =>
    obtain ⟨k0, v0⟩ := e0
    by_cases h1 : k = k0
    · simp only [IntMap.modify, if_pos h1, List.mem_cons] at h
      rcases h with h | h
      · exact ⟨(k0, v0), List.mem_cons_self _ _, by simp [h], Or.inr (by simp [h])⟩
      · exact ⟨e, List.mem_cons_of_mem _ h, rfl, Or.inl rfl⟩
    · simp only [IntMap.modify, if_neg h1, List.mem_cons] at h
      rcases h with h | h
      · exact ⟨(k0, v0), List.mem_cons_self _ _, by simp [h], Or.inl (by simp [h])⟩
      · obtain ⟨e1, he1, h3⟩ := ih h
        exact ⟨e1, List.mem_cons_of_mem _ he1, h3⟩

theorem IntMap.pairwise_modify {V : Type} (k : Int) (f : V → V) (m : IntMap V)
    (h : m.Pairwise (fun a b => a.1 < b.1)) :
    (IntMap.modify k f m).Pairwise (fun a b => a.1 < b.1) := by
  induction m with
  | nil => simp [IntMap.modify]
  | cons e0 t ih =>
    obtain ⟨k0, v0⟩ := e0
    rw [List.pairwise_cons] at h
    by_cases h1 : k = k0
    · simp only [IntMap.modify, if_pos h1]
      exact List.pairwise_cons.2 ⟨fun a ha => h.1 a ha, h.2⟩
    · simp only [IntMap.modify, if_neg h1]
      refine List.pairwise_cons.2 ⟨?_, ih h.2⟩
      intro a ha
      obtain ⟨e1, he1, h3, _⟩ := IntMap.mem_modify k f t a ha
      rw [h3]
      exact h.1 e1 he1

theorem IntMap.value_increment (k k' : Int) (m : IntMap Int) :
    IntMap.value (IntMap.increment k m) k' =
      if k' = k then IntMap.value m k + 1 else IntMap.value m k' := by
  unfold IntMap.increment IntMap.value
  rw [IntMap.find_insert]
  split_ifs <;> rfl

/-! ## Well-formedness of `Sensors` -/

theorem SensorsWF.insert {α : Type} {m : IntMap (SensorHitMap α)} (h : SensorsWF m) (k : Int)
    (s : SensorHitMap α) (hs : s.layer = k) : SensorsWF (IntMap.insert k s m) := by
  refine ⟨IntMap.pairwise_insert k s m h.1, ?_⟩
  intro it hit
  rcases IntMap.mem_insert k s m it hit with h1 | h1
  · simp [h1, hs]
  · exact h.2 it h1

theorem SensorsWF.modify {α : Type} {m : IntMap (SensorHitMap α)} (h : SensorsWF m) (k : Int)
    (f : SensorHitMap α → SensorHitMap α) (hf : ∀ s, (f s).layer = s.layer) :
    SensorsWF (IntMap.modify k f m) := by
  refine ⟨IntMap.pairwise_modify k f m h.1, ?_⟩
  intro it hit
  obtain ⟨e0, he0, h1, h2⟩ := IntMap.mem_modify k f m it hit
  rcases h2 with h2 | h2
  · rw [h1, h2]; exact h.2 e0 he0
  · rw [h1, h2, hf]; exact h.2 e0 he0

theorem fillRechit_frame {α : Type} [LinearOrderedField α] (self : Analyzer α) (ext : External α)
    (st : State α) (Rechit : Rechit α) :
    ∃ L S, fillRechit self ext st Rechit = { st with layer := L, Sensors := S } ∧
      (SensorsWF st.Sensors → SensorsWF S) := by
  refine ⟨_, _, rfl, ?_⟩
  intro h
  have hm : SensorsWF (match IntMap.find Rechit.layer st.Sensors with
      | none => IntMap.insert Rechit.layer
          (newLayerSensor self ext st.run st.energy Rechit.layer) st.Sensors
      | some _ => st.Sensors) := by
    cases hf : IntMap.find Rechit.layer st.Sensors with
    | none => exact h.insert _ _ rfl
    | some _ => exact h
  exact hm.modify Rechit.layer (SensorHitMap.addHit Rechit 1) (fun _ => rfl)

theorem fillRechits_frame {α : Type} [LinearOrderedField α] (self : Analyzer α)
    (ext : External α) (Rechits : List (Rechit α)) (st : State α) :
    ∃ L S, fillRechits self ext st Rechits = { st with layer := L, Sensors := S } ∧
      (SensorsWF st.Sensors → SensorsWF S) := by
  induction Rechits generalizing st with
  | nil => exact ⟨st.layer, st.Sensors, rfl, id⟩
  | cons r t ih =>
    obtain ⟨L1, S1, h1, w1⟩ := fillRechit_frame self ext st r
    obtain ⟨L2, S2, h2, w2⟩ := ih (fillRechit self ext st r)
    refine ⟨L2, S2, ?_, ?_⟩
    · simp only [fillRechits, List.foldl_cons] at h2 ⊢
      rw [h2, h1]
    · intro h
      apply w2
      rw [h1]
      exact w1 h

theorem step2_wf {α : Type} (self : Analyzer α) (st : State α) (h : SensorsWF st.Sensors) :
    SensorsWF (step2 self st).Sensors := by
  refine ⟨?_, ?_⟩
  · simp only [step2]
    rw [List.pairwise_map]
    exact h.1
  · intro it hit
    simp only [step2, List.mem_map] at hit
    obtain ⟨e0, he0, rfl⟩ := hit
    exact h.2 e0 he0

theorem step3_wf {α : Type} [LinearOrderedField α] (self : Analyzer α) (ext : External α)
    (st : State α) (dwcs : WireChambers α) (h : SensorsWF st.Sensors) :
    SensorsWF (step3 self ext st dwcs).Sensors := by
  unfold step3
  split
  · exact ((h.insert (self.nLayers + 1) (mwcSensor ext st.energy (self.nLayers + 1) dwcs.at0)
      rfl).insert (self.nLayers + 2) (mwcSensor ext st.energy (self.nLayers + 2) dwcs.at1)
      rfl).insert (self.nLayers + 3) (mwcSensor ext st.energy (self.nLayers + 3) dwcs.at3) rfl
  · exact h

theorem prepare_wf {α : Type} [LinearOrderedField α] (self : Analyzer α) (ext : External α)
    (st : State α) (event : Event α) (h : SensorsWF st.Sensors) :
    SensorsWF (prepare self ext st event).Sensors := by
  unfold prepare
  apply step3_wf
  apply step2_wf
  obtain ⟨L, S, h1, w1⟩ :=
    fillRechits_frame self ext event.Rechits (initFitCounters (readRunData st event))
  simp only [sumEnergies]
  rw [h1]
  apply w1
  unfold initFitCounters
  split <;> exact h

/-! ## The tracks of step 4 and the loop of step 5 -/

theorem find_foldl_insert_of_not_mem {V W : Type} (f : Int × V → W) (l : List (Int × V))
    (T : IntMap W) (k : Int) (hk : ∀ it ∈ l, it.1 ≠ k) :
    IntMap.find k (l.foldl (fun T it => IntMap.insert it.1 (f it) T) T) = IntMap.find k T := by
  induction l generalizing T with
  | nil => rfl
  | cons e t ih =>
    simp only [List.foldl_cons]
    rw [ih _ (fun it hit => hk it (List.mem_cons_of_mem _ hit)), IntMap.find_insert]
    have : k ≠ e.1 := fun h => hk e (List.mem_cons_self _ _) h.symm
    simp [this]

theorem find_foldl_insert_of_mem {V W : Type} (f : Int × V → W) (l : List (Int × V))
    (T : IntMap W) (hl : l.Pairwise (fun a b => a.1 < b.1)) (it : Int × V) (hit : it ∈ l) :
    IntMap.find it.1 (l.foldl (fun T it => IntMap.insert it.1 (f it) T) T) = some (f it) := by
  induction l generalizing T with
  | nil => simp at hit
  | cons e t ih =>
    rw [List.pairwise_cons] at hl
    simp only [List.foldl_cons]
    rcases List.mem_cons.1 hit with h | h
    · subst h
      rw [find_foldl_insert_of_not_mem f t _ _ (fun a ha => ne_of_gt (hl.1 a ha)),
        IntMap.find_insert]
      simp
    · exact ih _ hl.2 h

theorem fillTracks_find {α : Type} (self : Analyzer α) (Sensors : IntMap (SensorHitMap α))
    (h : SensorsWF Sensors) (it : Int × SensorHitMap α) (hit : it ∈ Sensors) :
    IntMap.find it.1 (fillTracks self Sensors) = some (fillTrack self Sensors it) :=
  find_foldl_insert_of_mem (fillTrack self Sensors) Sensors [] h.1 it hit

theorem addEligible_eq {α : Type} (self : Analyzer α) (i : Int) (track : ParticleTrack α)
    (jt : Int × SensorHitMap α) :
    addEligible self i track jt =
      if eligible self i jt.1 then track.addFitPoint jt.2 else track := by
  unfold addEligible eligible
  by_cases h1 : i = jt.1
  · simp [h1]
  · by_cases h2 : i ≤ self.nLayers
    · cases hu : self.useMWCReference <;> simp [h1, h2]
    · simp [h1, h2]

theorem foldl_addEligible {α : Type} (self : Analyzer α) (i : Int)
    (l : IntMap (SensorHitMap α)) (track : ParticleTrack α) :
    (l.foldl (addEligible self i) track).fitPoints =
        track.fitPoints ++ (l.filter (fun jt => eligible self i jt.1)).map Prod.snd ∧
      (l.foldl (addEligible self i) track).referenceSensor = track.referenceSensor := by
  induction l generalizing track with
  | nil => simp
  | cons e t ih =>
    simp only [List.foldl_cons]
    obtain ⟨h1, h2⟩ := ih (addEligible self i track e)
    rw [h1, h2, addEligible_eq]
    by_cases he : eligible self i e.1 = true
    · simp [he, ParticleTrack.addFitPoint]
    · simp [he]

theorem fillTrack_fitPoints {α : Type} (self : Analyzer α) (Sensors : IntMap (SensorHitMap α))
    (it : Int × SensorHitMap α) :
    (fillTrack self Sensors it).fitPoints =
        (Sensors.filter (fun jt => eligible self it.1 jt.1)).map Prod.snd ∧
      (fillTrack self Sensors it).referenceSensor = some it.2 := by
  have h := foldl_addEligible self it.1 Sensors { referenceSensor := some it.2 }
  simpa [fillTrack] using h

theorem mem_foldl_insert {V W : Type} (f : Int × V → W) (l : List (Int × V)) (T : IntMap W)
    (e : Int × W) (he : e ∈ l.foldl (fun T it => IntMap.insert it.1 (f it) T) T) :
    e ∈ T ∨ ∃ it ∈ l, e = (it.1, f it) := by
  induction l generalizing T with
  | nil => exact Or.inl he
  | cons a t ih =>
    simp only [List.foldl_cons] at he
    rcases ih _ he with h | ⟨it, hit, h⟩
    · rcases IntMap.mem_insert _ _ _ _ h with h | h
      · exact Or.inr ⟨a, List.mem_cons_self _ _, h⟩
      · exact Or.inl h
    · exact Or.inr ⟨it, List.mem_cons_of_mem _ hit, h⟩

theorem mem_fillTracks {α : Type} (self : Analyzer α) (Sensors : IntMap (SensorHitMap α))
    (e : Int × ParticleTrack α) (he : e ∈ fillTracks self Sensors) :
    ∃ it ∈ Sensors, e = (it.1, fillTrack self Sensors it) := by
  rcases mem_foldl_insert (fillTrack self Sensors) Sensors [] e he with h | h
  · simp at h
  · exact h

theorem fitPoint_layer_of_mem {α : Type} (self : Analyzer α) (Sensors : IntMap (SensorHitMap α))
    (h : SensorsWF Sensors) (it : Int × SensorHitMap α) (s : SensorHitMap α)
    (hs : s ∈ (fillTrack self Sensors it).fitPoints) :
    ∃ jt ∈ Sensors, jt.2 = s ∧ s.layer = jt.1 ∧ eligible self it.1 jt.1 = true := by
  rw [(fillTrack_fitPoints self Sensors it).1] at hs
  simp only [List.mem_map, List.mem_filter] at hs
  obtain ⟨jt, ⟨hjt, hel⟩, rfl⟩ := hs
  exact ⟨jt, hjt, rfl, h.2 jt hjt, hel⟩

theorem step5Loop_eq_pure {α : Type} [LinearOrderedField α] (ext : External α)
    (Tracks : IntMap (ParticleTrack α)) (tr : Int × SensorHitMap α → ParticleTrack α)
    (l : IntMap (SensorHitMap α)) (p : State α × Sums α)
    (h : ∀ it ∈ l, IntMap.find it.1 Tracks = some (tr it)) :
    step5Loop ext Tracks l p = some (step5Pure ext tr l p) := by
  induction l generalizing p with
  | nil => rfl
  | cons e t ih =>
    have he := h e (List.mem_cons_self _ _)
    have ht := ih (step5Body ext (tr e) e p) (fun it hit => h it (List.mem_cons_of_mem _ hit))
    simp only [step5Loop, step5Pure, List.foldlM_cons, List.foldl_cons, he, Option.map_some',
      Option.bind_eq_bind, Option.some_bind] at ht ⊢
    exact ht

theorem afterLayers_eq {α : Type} [LinearOrderedField α] (self : Analyzer α) (ext : External α)
    (st : State α) (event : Event α) (h : SensorsWF st.Sensors)
    (handled : IntMap (SensorHitMap α))
    (hsub : ∀ it ∈ handled, it ∈ (prepare self ext st event).Sensors) :
    afterLayers self ext st event handled =
      some (step5Pure ext (fillTrack self (prepare self ext st event).Sensors) handled
        (loopStart self ext st event)) :=
  step5Loop_eq_pure ext _ _ handled _
    (fun it hit => fillTracks_find self _ (prepare_wf self ext st event h) it (hsub it hit))

theorem step5Pure_append {α : Type} [LinearOrderedField α] (ext : External α)
    (tr : Int × SensorHitMap α → ParticleTrack α) (l1 l2 : IntMap (SensorHitMap α))
    (p : State α × Sums α) :
    step5Pure ext tr (l1 ++ l2) p = step5Pure ext tr l2 (step5Pure ext tr l1 p) := by
  simp [step5Pure, List.foldl_append]

theorem skipped_iff {α : Type} (event : Event α) :
    skipped event ↔
      (event.rd.hasDanger = true ∨ event.rd.run = -1 ∨ trackerGood event.dwcs = false) := by
  simp only [skipped, trackerGood, Bool.and_eq_true, Bool.not_eq_true, ← Bool.not_eq_true,
    and_assoc]

theorem analyze_dangerSkip {α : Type} [LinearOrderedField α] (self : Analyzer α)
    (ext : External α) (st : State α) (event : Event α) (h : event.rd.hasDanger = true) :
    analyze self ext st event = some (.dangerSkip, readRunData st event) := by
  simp [analyze, h]

theorem analyze_unmappedRunSkip {α : Type} [LinearOrderedField α] (self : Analyzer α)
    (ext : External α) (st : State α) (event : Event α) (h : event.rd.hasDanger = false)
    (hr : event.rd.run = -1) :
    analyze self ext st event = some (.unmappedRunSkip, readRunData st event) := by
  have hr2 : (readRunData st event).run = -1 := hr
  simp [analyze, h, hr2]

theorem analyze_trackerNotGoodSkip {α : Type} [LinearOrderedField α] (self : Analyzer α)
    (ext : External α) (st : State α) (event : Event α) (h : event.rd.hasDanger = false)
    (hr : event.rd.run ≠ -1) (hg : trackerGood event.dwcs = false) :
    analyze self ext st event =
      some (.trackerNotGoodSkip,
        fillRechits self ext (initFitCounters (readRunData st event)) event.Rechits) := by
  have hr2 : ¬ (readRunData st event).run = -1 := hr
  simp [analyze, h, hr2, hg]

theorem analyze_processed {α : Type} [LinearOrderedField α] (self : Analyzer α)
    (ext : External α) (st : State α) (event : Event α) (hw : SensorsWF st.Sensors)
    (h : ¬ skipped event) :
    analyze self ext st event =
      some (.completed,
        { (step5Pure ext (fillTrack self (prepare self ext st event).Sensors)
            (prepare self ext st event).Sensors (loopStart self ext st event)).1 with
          Sensors := [] }) := by
  rw [skipped_iff] at h
  push_neg at h
  obtain ⟨h1, h2, h3⟩ := h
  have h3 : trackerGood event.dwcs = true := by simpa using h3
  have h1 : event.rd.hasDanger = false := by simpa using h1
  have key := afterLayers_eq self ext st event hw _ (fun it hit => hit)
  unfold afterLayers at key
  have h2 : ¬ (readRunData st event).run = -1 := h2
  simp only [analyze, h1, h2, h3, if_false, Bool.not_true, Bool.false_eq_true]
  exact congrArg
    (Option.map (fun p : State α × Sums α => (ExitPath.completed, { p.1 with Sensors := [] })))
    key

/-! ## One iteration of the loop of step 5 -/

theorem fitFailed_predictLayer {α : Type} [LinearOrderedField α] (ext : External α)
    (track : ParticleTrack α) (it : Int × SensorHitMap α) (p : State α × Sums α) :
    fitFailed (predictLayer ext track it p).1 = true ↔ allZero ext track := by
  simp [fitFailed, predictLayer, allZero, and_assoc]

theorem step5Body_of_allZero {α : Type} [LinearOrderedField α] (ext : External α)
    (track : ParticleTrack α) (it : Int × SensorHitMap α) (p : State α × Sums α)
    (h : allZero ext track) :
    step5Body ext track it p =
      ({ (predictLayer ext track it p).1 with
          failedFitCounter := IntMap.increment p.1.run p.1.failedFitCounter },
        (predictLayer ext track it p).2) := by
  have hf := (fitFailed_predictLayer ext track it p).2 h
  simp only [step5Body, hf, if_true]
  rfl

theorem step5Body_of_not_allZero {α : Type} [LinearOrderedField α] (ext : External α)
    (track : ParticleTrack α) (it : Int × SensorHitMap α) (p : State α × Sums α)
    (h : ¬ allZero ext track) :
    step5Body ext track it p =
      (fillSelected (compareLayer ext it (predictLayer ext track it p)).1,
        (compareLayer ext it (predictLayer ext track it p)).2) := by
  have hf : fitFailed (predictLayer ext track it p).1 = false := by
    rw [← Bool.not_eq_true, fitFailed_predictLayer]
    exact h
  simp only [step5Body, hf, Bool.false_eq_true, if_false]

theorem fillSelected_frame {α : Type} [LinearOrderedField α] (st : State α) :
    ∃ T, fillSelected st = { st with outTree := T } := by
  unfold fillSelected
  split_ifs
  · exact ⟨_, rfl⟩
  · exact ⟨st.outTree, rfl⟩

theorem step5Body_run {α : Type} [LinearOrderedField α] (ext : External α)
    (track : ParticleTrack α) (it : Int × SensorHitMap α) (p : State α × Sums α) :
    (step5Body ext track it p).1.run = p.1.run := by
  by_cases h : allZero ext track
  · rw [step5Body_of_allZero ext track it p h]
    rfl
  · rw [step5Body_of_not_allZero ext track it p h]
    obtain ⟨T, hT⟩ := fillSelected_frame (compareLayer ext it (predictLayer ext track it p)).1
    rw [hT]
    rfl

theorem step5Body_counters_failed {α : Type} [LinearOrderedField α] (ext : External α)
    (track : ParticleTrack α) (it : Int × SensorHitMap α) (p : State α × Sums α)
    (h : allZero ext track) :
    (step5Body ext track it p).1.failedFitCounter =
        IntMap.increment p.1.run p.1.failedFitCounter ∧
      (step5Body ext track it p).1.successfulFitCounter = p.1.successfulFitCounter ∧
      (step5Body ext track it p).1.outTree = p.1.outTree := by
  rw [step5Body_of_allZero ext track it p h]
  exact ⟨rfl, rfl, rfl⟩

theorem step5Body_counters_ok {α : Type} [LinearOrderedField α] (ext : External α)
    (track : ParticleTrack α) (it : Int × SensorHitMap α) (p : State α × Sums α)
    (h : ¬ allZero ext track) :
    (step5Body ext track it p).1.successfulFitCounter =
        IntMap.increment p.1.run p.1.successfulFitCounter ∧
      (step5Body ext track it p).1.failedFitCounter = p.1.failedFitCounter := by
  rw [step5Body_of_not_allZero ext track it p h]
  obtain ⟨T, hT⟩ := fillSelected_frame (compareLayer ext it (predictLayer ext track it p)).1
  rw [hT]
  exact ⟨rfl, rfl⟩

theorem step5Body_outTree_ok {α : Type} [LinearOrderedField α] (ext : External α)
    (track : ParticleTrack α) (it : Int × SensorHitMap α) (p : State α × Sums α)
    (h : ¬ allZero ext track) :
    (it.1 = 1 ∧ ext.getChi2 track 1 < 10 ∧ ext.getChi2 track 2 < 10 →
        ∃ e, e.layer = 1 ∧ (step5Body ext track it p).1.outTree = p.1.outTree ++ [e]) ∧
      (¬ (it.1 = 1 ∧ ext.getChi2 track 1 < 10 ∧ ext.getChi2 track 2 < 10) →
        (step5Body ext track it p).1.outTree = p.1.outTree) := by
  rw [step5Body_of_not_allZero ext track it p h]
  constructor
  · intro hc
    have hc2 : (compareLayer ext it (predictLayer ext track it p)).1.layer = 1 ∧
        (compareLayer ext it (predictLayer ext track it p)).1.chi2_x < 10 ∧
        (compareLayer ext it (predictLayer ext track it p)).1.chi2_y < 10 := hc
    simp only [fillSelected, if_pos hc2]
    exact ⟨_, hc.1, rfl⟩
  · intro hc
    have hc2 : ¬ ((compareLayer ext it (predictLayer ext track it p)).1.layer = 1 ∧
        (compareLayer ext it (predictLayer ext track it p)).1.chi2_x < 10 ∧
        (compareLayer ext it (predictLayer ext track it p)).1.chi2_y < 10) := hc
    simp only [fillSelected, if_neg hc2]
    rfl

theorem step5Body_total {α : Type} [LinearOrderedField α] (ext : External α)
    (track : ParticleTrack α) (it : Int × SensorHitMap α) (p : State α × Sums α) (r : Int) :
    IntMap.value (step5Body ext track it p).1.successfulFitCounter r +
        IntMap.value (step5Body ext track it p).1.failedFitCounter r =
      IntMap.value p.1.successfulFitCounter r + IntMap.value p.1.failedFitCounter r +
        if r = p.1.run then 1 else 0 := by
  by_cases h : allZero ext track
  · obtain ⟨h1, h2, _⟩ := step5Body_counters_failed ext track it p h
    rw [h1, h2, IntMap.value_increment]
    split_ifs with hr
    · subst hr; ring
    · ring
  · obtain ⟨h1, h2⟩ := step5Body_counters_ok ext track it p h
    rw [h1, h2, IntMap.value_increment]
    split_ifs with hr
    · subst hr; ring
    · ring

theorem step5Pure_run {α : Type} [LinearOrderedField α] (ext : External α)
    (tr : Int × SensorHitMap α → ParticleTrack α) (l : IntMap (SensorHitMap α))
    (p : State α × Sums α) : (step5Pure ext tr l p).1.run = p.1.run := by
  induction l generalizing p with
  | nil => rfl
  | cons e t ih =>
    simp only [step5Pure, List.foldl_cons] at ih ⊢
    rw [ih, step5Body_run]

theorem step5Pure_total {α : Type} [LinearOrderedField α] (ext : External α)
    (tr : Int × SensorHitMap α → ParticleTrack α) (l : IntMap (SensorHitMap α))
    (p : State α × Sums α) :
    IntMap.value (step5Pure ext tr l p).1.successfulFitCounter p.1.run +
        IntMap.value (step5Pure ext tr l p).1.failedFitCounter p.1.run =
      IntMap.value p.1.successfulFitCounter p.1.run +
        IntMap.value p.1.failedFitCounter p.1.run + l.length := by
  induction l generalizing p with
  | nil => simp [step5Pure]
  | cons e t ih =>
    have h1 := ih (step5Body ext (tr e) e p)
    rw [step5Body_run, step5Body_total] at h1
    simp only [step5Pure, List.foldl_cons, List.length_cons] at h1 ⊢
    rw [h1]
    simp only [if_true]
    push_cast
    ring

theorem step5Pure_other_runs {α : Type} [LinearOrderedField α] (ext : External α)
    (tr : Int × SensorHitMap α → ParticleTrack α) (l : IntMap (SensorHitMap α))
    (p : State α × Sums α) (r : Int) (hr : r ≠ p.1.run) :
    IntMap.value (step5Pure ext tr l p).1.successfulFitCounter r =
        IntMap.value p.1.successfulFitCounter r ∧
      IntMap.value (step5Pure ext tr l p).1.failedFitCounter r =
        IntMap.value p.1.failedFitCounter r := by
  induction l generalizing p with
  | nil => exact ⟨rfl, rfl⟩
  | cons e t ih =>
    have h1 := ih (step5Body ext (tr e) e p) (by rw [step5Body_run]; exact hr)
    simp only [step5Pure, List.foldl_cons] at h1 ⊢
    rw [h1.1, h1.2]
    by_cases h : allZero ext (tr e)
    · obtain ⟨h2, h3, _⟩ := step5Body_counters_failed ext (tr e) e p h
      rw [h2, h3, IntMap.value_increment, if_neg hr]
      exact ⟨rfl, rfl⟩
    · obtain ⟨h2, h3⟩ := step5Body_counters_ok ext (tr e) e p h
      rw [h2, h3, IntMap.value_increment, if_neg hr]
      exact ⟨rfl, rfl⟩

/-! ## The loop of step 5 inside `analyze` -/

theorem take_succ_get {β : Type} (l : List β) (k : Nat) (hk : k < l.length) :
    l.take (k + 1) = l.take k ++ [l.get ⟨k, hk⟩] := by
  rw [List.take_succ, List.getElem?_eq_getElem hk]
  rfl

theorem prepare_frame {α : Type} [LinearOrderedField α] (self : Analyzer α) (ext : External α)
    (st : State α) (event : Event α) :
    (prepare self ext st event).run = event.rd.run ∧
      (prepare self ext st event).outTree = st.outTree ∧
      (prepare self ext st event).successfulFitCounter =
        (initFitCounters (readRunData st event)).successfulFitCounter ∧
      (prepare self ext st event).failedFitCounter =
        (initFitCounters (readRunData st event)).failedFitCounter := by
  obtain ⟨L, S, h1, _⟩ :=
    fillRechits_frame self ext event.Rechits (initFitCounters (readRunData st event))
  have hi : (initFitCounters (readRunData st event)).run = event.rd.run ∧
      (initFitCounters (readRunData st event)).outTree = st.outTree := by
    unfold initFitCounters
    split <;> exact ⟨rfl, rfl⟩
  unfold prepare step3
  rw [h1]
  split <;> exact ⟨hi.1, hi.2, rfl, rfl⟩

theorem loopStart_frame {α : Type} [LinearOrderedField α] (self : Analyzer α)
    (ext : External α) (st : State α) (event : Event α) :
    (loopStart self ext st event).1.run = event.rd.run ∧
      (loopStart self ext st event).1.outTree = st.outTree ∧
      (loopStart self ext st event).1.successfulFitCounter =
        (initFitCounters (readRunData st event)).successfulFitCounter ∧
      (loopStart self ext st event).1.failedFitCounter =
        (initFitCounters (readRunData st event)).failedFitCounter :=
  prepare_frame self ext st event

theorem initFitCounters_value {α : Type} (st : State α)
    (hc : ∀ r, IntMap.find r st.successfulFitCounter = none →
      IntMap.find r st.failedFitCounter = none) (r : Int) :
    IntMap.value (initFitCounters st).successfulFitCounter r =
        IntMap.value st.successfulFitCounter r ∧
      IntMap.value (initFitCounters st).failedFitCounter r =
        IntMap.value st.failedFitCounter r := by
  unfold initFitCounters
  cases hf : IntMap.find st.run st.successfulFitCounter with
  | some _ => exact ⟨rfl, rfl⟩
  | none =>
    have hf2 := hc _ hf
    simp only [IntMap.value, IntMap.find_insert]
    by_cases hr : r = st.run
    · subst hr
      simp [hf, hf2]
    · simp [hr]

theorem fillRechits_counters {α : Type} [LinearOrderedField α] (self : Analyzer α)
    (ext : External α) (st : State α) (Rechits : List (Rechit α)) :
    (fillRechits self ext st Rechits).successfulFitCounter = st.successfulFitCounter ∧
      (fillRechits self ext st Rechits).failedFitCounter = st.failedFitCounter ∧
      (fillRechits self ext st Rechits).outTree = st.outTree := by
  obtain ⟨L, S, h1, _⟩ := fillRechits_frame self ext Rechits st
  rw [h1]
  exact ⟨rfl, rfl, rfl⟩

theorem afterLayers_step {α : Type} [LinearOrderedField α] (self : Analyzer α)
    (ext : External α) (st : State α) (event : Event α) (hw : SensorsWF st.Sensors) (k : Nat)
    (hk : k < (prepare self ext st event).Sensors.length) :
    ∃ p, afterLayers self ext st event ((prepare self ext st event).Sensors.take k) = some p ∧
      afterLayers self ext st event ((prepare self ext st event).Sensors.take (k + 1)) =
        some (step5Body ext
          (fillTrack self (prepare self ext st event).Sensors
            ((prepare self ext st event).Sensors.get ⟨k, hk⟩))
          ((prepare self ext st event).Sensors.get ⟨k, hk⟩) p) ∧
      IntMap.find ((prepare self ext st event).Sensors.get ⟨k, hk⟩).1
          (fillTracks self (prepare self ext st event).Sensors) =
        some (fillTrack self (prepare self ext st event).Sensors
          ((prepare self ext st event).Sensors.get ⟨k, hk⟩)) ∧
      p.1.run = event.rd.run ∧
      p = step5Pure ext (fillTrack self (prepare self ext st event).Sensors)
        ((prepare self ext st event).Sensors.take k) (loopStart self ext st event) := by
  have h1 := afterLayers_eq self ext st event hw ((prepare self ext st event).Sensors.take k)
    (fun it hit => List.mem_of_mem_take hit)
  have h2 := afterLayers_eq self ext st event hw
    ((prepare self ext st event).Sensors.take (k + 1)) (fun it hit => List.mem_of_mem_take hit)
  refine ⟨_, h1, ?_, ?_, ?_, rfl⟩
  · rw [h2, take_succ_get _ k hk, step5Pure_append]
    rfl
  · exact fillTracks_find self _ (prepare_wf self ext st event hw) _ (List.get_mem _ k hk)
  · rw [step5Pure_run]
    exact (loopStart_frame self ext st event).1

theorem analyze_total_count {α : Type} [LinearOrderedField α] (self : Analyzer α)
    (ext : External α) (st : State α) (event : Event α) (hw : StateWF st)
    (hp : ¬ skipped event) :
    ∃ st', analyze self ext st event = some (.completed, st') ∧
      IntMap.value st'.successfulFitCounter event.rd.run +
          IntMap.value st'.failedFitCounter event.rd.run =
        IntMap.value st.successfulFitCounter event.rd.run +
          IntMap.value st.failedFitCounter event.rd.run +
          (prepare self ext st event).Sensors.length := by
  refine ⟨_, analyze_processed self ext st event hw.1 hp, ?_⟩
  obtain ⟨hrun, _, hs, hf⟩ := loopStart_frame self ext st event
  have hv := initFitCounters_value (readRunData st event) hw.2 event.rd.run
  have ht := step5Pure_total ext (fillTrack self (prepare self ext st event).Sensors)
    (prepare self ext st event).Sensors (loopStart self ext st event)
  rw [hrun, hs, hf, hv.1, hv.2] at ht
  exact ht

theorem analyze_skip_frame {α : Type} [LinearOrderedField α] (self : Analyzer α)
    (ext : External α) (st : State α) (event : Event α) (hw : StateWF st)
    (hs : skipped event) :
    ∃ exit st', analyze self ext st event = some (exit, st') ∧ exit ≠ .completed ∧
      st'.outTree = st.outTree ∧
      ∀ r, IntMap.value st'.successfulFitCounter r = IntMap.value st.successfulFitCounter r ∧
        IntMap.value st'.failedFitCounter r = IntMap.value st.failedFitCounter r := by
  rw [skipped_iff] at hs
  by_cases h1 : event.rd.hasDanger = true
  · exact ⟨_, _, analyze_dangerSkip self ext st event h1, by decide, rfl,
      fun r => ⟨rfl, rfl⟩⟩
  · have h1 : event.rd.hasDanger = false := by simpa using h1
    by_cases h2 : event.rd.run = -1
    · exact ⟨_, _, analyze_unmappedRunSkip self ext st event h1 h2, by decide, rfl,
        fun r => ⟨rfl, rfl⟩⟩
    · have h3 : trackerGood event.dwcs = false := by
        rcases hs with h | h | h
        · rw [h1] at h; exact absurd h (by decide)
        · exact absurd h h2
        · exact h
      refine ⟨_, _, analyze_trackerNotGoodSkip self ext st event h1 h2 h3, by decide, ?_, ?_⟩
      · obtain ⟨_, _, ho⟩ := fillRechits_counters self ext
          (initFitCounters (readRunData st event)) event.Rechits
        rw [ho]
        unfold initFitCounters
        split <;> rfl
      · intro r
        obtain ⟨hs1, hf1, _⟩ := fillRechits_counters self ext
          (initFitCounters (readRunData st event)) event.Rechits
        rw [hs1, hf1]
        exact initFitCounters_value (readRunData st event) hw.2 r

/-! ## Entries written to the tree -/

theorem IntMap.find_eq_some_iff {V : Type} (m : IntMap V)
    (hm : m.Pairwise (fun a b => a.1 < b.1)) (k : Int) (v : V) :
    IntMap.find k m = some v ↔ (k, v) ∈ m := by
  induction m with
  | nil => simp [IntMap.find]
  | cons e t ih =>
    obtain ⟨k0, v0⟩ := e
    rw [List.pairwise_cons] at hm
    by_cases h : k = k0
    · subst h
      simp only [IntMap.find, if_true, Option.some.injEq, List.mem_cons, Prod.mk.injEq,
        true_and]
      constructor
      · intro h1; exact Or.inl h1.symm
      · rintro (h1 | h1)
        · exact h1.symm
        · exact absurd (hm.1 _ h1) (lt_irrefl _)
    · simp only [IntMap.find, if_neg h, List.mem_cons, Prod.mk.injEq, h, false_and, false_or]
      exact ih hm.2

theorem step5Body_outTree {α : Type} [LinearOrderedField α] (ext : External α)
    (track : ParticleTrack α) (it : Int × SensorHitMap α) (p : State α × Sums α) :
    (writesEntry ext track it →
        ∃ e, e.layer = 1 ∧ (step5Body ext track it p).1.outTree = p.1.outTree ++ [e]) ∧
      (¬ writesEntry ext track it → (step5Body ext track it p).1.outTree = p.1.outTree) := by
  by_cases hz : allZero ext track
  · refine ⟨fun hw => absurd hz hw.2.1, fun _ => ?_⟩
    exact (step5Body_counters_failed ext track it p hz).2.2
  · obtain ⟨h1, h2⟩ := step5Body_outTree_ok ext track it p hz
    refine ⟨fun hw => h1 ⟨hw.1, hw.2.2⟩, fun hw => h2 ?_⟩
    intro hc
    exact hw ⟨hc.1, hz, hc.2⟩

theorem step5Pure_outTree {α : Type} [LinearOrderedField α] (ext : External α)
    (tr : Int × SensorHitMap α → ParticleTrack α) (l : IntMap (SensorHitMap α))
    (hl : l.Pairwise (fun a b => a.1 < b.1)) (p : State α × Sums α) :
    ∃ new, (step5Pure ext tr l p).1.outTree = p.1.outTree ++ new ∧
      (∀ e ∈ new, e.layer = 1) ∧ new.length ≤ 1 ∧
      (new.length = 1 ↔ ∃ it ∈ l, writesEntry ext (tr it) it) := by
  induction l generalizing p with
  | nil => exact ⟨[], by simp [step5Pure], by simp, by simp, by simp⟩
  | cons a t ih =>
    rw [List.pairwise_cons] at hl
    obtain ⟨new, h1, h2, h3, h4⟩ := ih hl.2 (step5Body ext (tr a) a p)
    obtain ⟨b1, b2⟩ := step5Body_outTree ext (tr a) a p
    have hcons : step5Pure ext tr (a :: t) p = step5Pure ext tr t (step5Body ext (tr a) a p) :=
      rfl
    by_cases hw : writesEntry ext (tr a) a
    · obtain ⟨e, he1, he2⟩ := b1 hw
      have hnone : ¬ ∃ it ∈ t, writesEntry ext (tr it) it := by
        rintro ⟨it, hit, hwit⟩
        have := hl.1 it hit
        rw [hw.1, hwit.1] at this
        exact lt_irrefl _ this
      have hnew : new = [] := by
        have hlen : new.length ≠ 1 := fun h => hnone (h4.1 h)
        have : new.length = 0 := by omega
        exact List.length_eq_zero.1 this
      refine ⟨[e], ?_, ?_, by simp, ?_⟩
      · rw [hcons, h1, he2, hnew]
        simp
      · intro e' he'
        rw [List.mem_singleton.1 he']
        exact he1
      · simp only [List.length_singleton, true_iff]
        exact ⟨a, List.mem_cons_self _ _, hw⟩
    · refine ⟨new, ?_, h2, h3, ?_⟩
      · rw [hcons, h1, b2 hw]
      · rw [h4]
        constructor
        · rintro ⟨it, hit, hwit⟩
          exact ⟨it, List.mem_cons_of_mem _ hit, hwit⟩
        · rintro ⟨it, hit, hwit⟩
          rcases List.mem_cons.1 hit with h | h
          · subst h; exact absurd hwit hw
          · exact ⟨it, h, hwit⟩

/-! ## The sums and running averages of step 5 -/

theorem step5Body_sums {α : Type} [LinearOrderedField α] (ext : External α)
    (track : ParticleTrack α) (it : Int × SensorHitMap α) (p : State α × Sums α) :
    (step5Body ext track it p).2.sum_energy = p.2.sum_energy + ext.getTotalEnergy it.2 ∧
      (step5Body ext track it p).2.sum_x_predicted =
        p.2.sum_x_predicted + (ext.calculateReferenceXY track).1 * ext.getTotalEnergy it.2 ∧
      (step5Body ext track it p).2.sum_y_predicted =
        p.2.sum_y_predicted + (ext.calculateReferenceXY track).2 * ext.getTotalEnergy it.2 ∧
      (¬ allZero ext track →
        (step5Body ext track it p).2.sum_x_true =
            p.2.sum_x_true + (ext.getLabHitPosition it.2).1 * ext.getTotalEnergy it.2 ∧
          (step5Body ext track it p).2.sum_y_true =
            p.2.sum_y_true + (ext.getLabHitPosition it.2).2 * ext.getTotalEnergy it.2) := by
  by_cases h : allZero ext track
  · rw [step5Body_of_allZero ext track it p h]
    exact ⟨rfl, rfl, rfl, fun hn => absurd h hn⟩
  · rw [step5Body_of_not_allZero ext track it p h]
    exact ⟨rfl, rfl, rfl, fun _ => ⟨rfl, rfl⟩⟩

theorem step5Body_ok_frame {α : Type} [LinearOrderedField α] (ext : External α)
    (track : ParticleTrack α) (it : Int × SensorHitMap α) (p : State α × Sums α)
    (h : ¬ allZero ext track) :
    ∃ T, (step5Body ext track it p).1 =
        { (compareLayer ext it (predictLayer ext track it p)).1 with outTree := T } ∧
      (step5Body ext track it p).2 = (compareLayer ext it (predictLayer ext track it p)).2 := by
  rw [step5Body_of_not_allZero ext track it p h]
  obtain ⟨T, hT⟩ := fillSelected_frame (compareLayer ext it (predictLayer ext track it p)).1
  exact ⟨T, hT, rfl⟩

theorem step5Body_averages_low {α : Type} [LinearOrderedField α] (ext : External α)
    (track : ParticleTrack α) (it : Int × SensorHitMap α) (p : State α × Sums α)
    (h : ¬ allZero ext track) (h6 : it.1 ≤ 6) :
    (step5Body ext track it p).1.average_x_predicted =
        (step5Body ext track it p).2.sum_x_predicted / (step5Body ext track it p).2.sum_energy ∧
      (step5Body ext track it p).1.average_y_predicted =
        (step5Body ext track it p).2.sum_y_predicted / (step5Body ext track it p).2.sum_energy ∧
      (step5Body ext track it p).1.average_x_true =
        (step5Body ext track it p).2.sum_x_true / (step5Body ext track it p).2.sum_energy ∧
      (step5Body ext track it p).1.average_y_true =
        (step5Body ext track it p).2.sum_y_true / (step5Body ext track it p).2.sum_energy ∧
      (step5Body ext track it p).1.average_deltaX =
        (step5Body ext track it p).1.average_x_true -
          (step5Body ext track it p).1.average_x_predicted ∧
      (step5Body ext track it p).1.average_deltaY =
        (step5Body ext track it p).1.average_y_true -
          (step5Body ext track it p).1.average_y_predicted := by
  obtain ⟨T, h1, h2⟩ := step5Body_ok_frame ext track it p h
  have hl : (predictLayer ext track it p).1.layer ≤ 6 := h6
  rw [h1, h2]
  simp only [compareLayer, if_pos hl, and_self]

theorem step5Body_averages_high {α : Type} [LinearOrderedField α] (ext : External α)
    (track : ParticleTrack α) (it : Int × SensorHitMap α) (p : State α × Sums α)
    (h : ¬ allZero ext track) (h6 : 6 < it.1) :
    (step5Body ext track it p).1.average_x_predicted = -999 ∧
      (step5Body ext track it p).1.average_y_predicted = -999 ∧
      (step5Body ext track it p).1.average_x_true = -999 ∧
      (step5Body ext track it p).1.average_y_true = -999 ∧
      (step5Body ext track it p).1.average_deltaX = -999 ∧
      (step5Body ext track it p).1.average_deltaY = -999 := by
  obtain ⟨T, h1, _⟩ := step5Body_ok_frame ext track it p h
  have hl : ¬ (predictLayer ext track it p).1.layer ≤ 6 := not_le.2 h6
  rw [h1]
  simp only [compareLayer, if_neg hl, and_self]

theorem step5Body_averages_failed {α : Type} [LinearOrderedField α] (ext : External α)
    (track : ParticleTrack α) (it : Int × SensorHitMap α) (p : State α × Sums α)
    (h : allZero ext track) :
    (step5Body ext track it p).1.average_x_predicted = p.1.average_x_predicted ∧
      (step5Body ext track it p).1.average_y_predicted = p.1.average_y_predicted ∧
      (step5Body ext track it p).1.average_x_true = p.1.average_x_true ∧
      (step5Body ext track it p).1.average_y_true = p.1.average_y_true ∧
      (step5Body ext track it p).1.average_deltaX = p.1.average_deltaX ∧
      (step5Body ext track it p).1.average_deltaY = p.1.average_deltaY := by
  rw [step5Body_of_allZero ext track it p h]
  exact ⟨rfl, rfl, rfl, rfl, rfl, rfl⟩

theorem step5Pure_sums {α : Type} [LinearOrderedField α] (ext : External α)
    (tr : Int × SensorHitMap α → ParticleTrack α) (l : IntMap (SensorHitMap α))
    (p : State α × Sums α) :
    (step5Pure ext tr l p).2.sum_energy =
        p.2.sum_energy + (l.map (fun jt => ext.getTotalEnergy jt.2)).sum ∧
      (step5Pure ext tr l p).2.sum_x_predicted =
        p.2.sum_x_predicted +
          (l.map (fun jt => (ext.calculateReferenceXY (tr jt)).1 *
            ext.getTotalEnergy jt.2)).sum ∧
      (step5Pure ext tr l p).2.sum_y_predicted =
        p.2.sum_y_predicted +
          (l.map (fun jt => (ext.calculateReferenceXY (tr jt)).2 *
            ext.getTotalEnergy jt.2)).sum ∧
      ((∀ jt ∈ l, ¬ allZero ext (tr jt)) →
        (step5Pure ext tr l p).2.sum_x_true =
            p.2.sum_x_true +
              (l.map (fun jt => (ext.getLabHitPosition jt.2).1 *
                ext.getTotalEnergy jt.2)).sum ∧
          (step5Pure ext tr l p).2.sum_y_true =
            p.2.sum_y_true +
              (l.map (fun jt => (ext.getLabHitPosition jt.2).2 *
                ext.getTotalEnergy jt.2)).sum) := by
  induction l generalizing p with
  | nil => simp [step5Pure]
  | cons a t ih =>
    obtain ⟨i1, i2, i3, i4⟩ := ih (step5Body ext (tr a) a p)
    obtain ⟨b1, b2, b3, b4⟩ := step5Body_sums ext (tr a) a p
    have hcons : step5Pure ext tr (a :: t) p = step5Pure ext tr t (step5Body ext (tr a) a p) :=
      rfl
    rw [hcons, i1, i2, i3, b1, b2, b3]
    simp only [List.map_cons, List.sum_cons]
    refine ⟨by ring, by ring, by ring, ?_⟩
    intro hall
    obtain ⟨c1, c2⟩ := b4 (hall a (List.mem_cons_self _ _))
    obtain ⟨d1, d2⟩ := i4 (fun jt hjt => hall jt (List.mem_cons_of_mem _ hjt))
    rw [d1, d2, c1, c2]
    exact ⟨by ring, by ring⟩

theorem mem_take_succ_iff {V : Type} (l : IntMap V) (hl : l.Pairwise (fun a b => a.1 < b.1))
    (k : Nat) (hk : k < l.length) (jt : Int × V) (hjt : jt ∈ l) :
    jt ∈ l.take (k + 1) ↔ jt.1 ≤ (l.get ⟨k, hk⟩).1 := by
  have hsplit := List.take_append_drop (k + 1) l
  have hp : (l.take (k + 1) ++ l.drop (k + 1)).Pairwise (fun a b => a.1 < b.1) := by
    rw [hsplit]; exact hl
  rw [List.pairwise_append] at hp
  obtain ⟨hp1, _, hp3⟩ := hp
  rw [take_succ_get l k hk] at hp1 hp3
  rw [List.pairwise_append] at hp1
  constructor
  · intro h
    rw [take_succ_get l k hk] at h
    rcases List.mem_append.1 h with h | h
    · exact le_of_lt (hp1.2.2 jt h _ (List.mem_singleton_self _))
    · rw [List.mem_singleton.1 h]
  · intro h
    rw [← hsplit] at hjt
    rcases List.mem_append.1 hjt with h1 | h1
    · exact h1
    · have := hp3 (l.get ⟨k, hk⟩) (List.mem_append_right _ (List.mem_singleton_self _)) jt h1
      omega

/-! ## The invariant `StateWF` -/

theorem StateWF_fresh {α : Type} [LinearOrderedField α] : StateWF (State.fresh : State α) :=
  ⟨⟨List.Pairwise.nil, fun _ h => absurd h (List.not_mem_nil _)⟩, fun _ _ => rfl⟩

theorem initFitCounters_inv {α : Type} (st : State α)
    (hc : ∀ r, IntMap.find r st.successfulFitCounter = none →
      IntMap.find r st.failedFitCounter = none) :
    (∀ r, IntMap.find r (initFitCounters st).successfulFitCounter = none →
        IntMap.find r (initFitCounters st).failedFitCounter = none) ∧
      IntMap.find st.run (initFitCounters st).successfulFitCounter ≠ none := by
  unfold initFitCounters
  cases hf : IntMap.find st.run st.successfulFitCounter with
  | some v =>
    refine ⟨hc, ?_⟩
    simp [hf]
  | none =>
    refine ⟨?_, ?_⟩
    · intro r hr
      simp only [IntMap.find_insert] at hr ⊢
      by_cases h : r = st.run
      · simp [h] at hr
      · simp only [if_neg h] at hr ⊢
        exact hc r hr
    · simp [IntMap.find_insert]

theorem step5Body_inv {α : Type} [LinearOrderedField α] (ext : External α)
    (track : ParticleTrack α) (it : Int × SensorHitMap α) (p : State α × Sums α)
    (hc : ∀ r, IntMap.find r p.1.successfulFitCounter = none →
      IntMap.find r p.1.failedFitCounter = none)
    (hr : IntMap.find p.1.run p.1.successfulFitCounter ≠ none) :
    (∀ r, IntMap.find r (step5Body ext track it p).1.successfulFitCounter = none →
        IntMap.find r (step5Body ext track it p).1.failedFitCounter = none) ∧
      IntMap.find p.1.run (step5Body ext track it p).1.successfulFitCounter ≠ none := by
  by_cases h : allZero ext track
  · obtain ⟨h1, h2, _⟩ := step5Body_counters_failed ext track it p h
    rw [h1, h2]
    refine ⟨?_, hr⟩
    intro r hn
    have hne : r ≠ p.1.run := fun e => hr (e ▸ hn)
    simp only [IntMap.increment, IntMap.find_insert, if_neg hne]
    exact hc r hn
  · obtain ⟨h1, h2⟩ := step5Body_counters_ok ext track it p h
    rw [h1, h2]
    refine ⟨?_, ?_⟩
    · intro r hn
      simp only [IntMap.increment, IntMap.find_insert] at hn
      by_cases hne : r = p.1.run
      · simp [hne] at hn
      · simp only [if_neg hne] at hn
        exact hc r hn
    · simp [IntMap.increment, IntMap.find_insert]

theorem step5Pure_inv {α : Type} [LinearOrderedField α] (ext : External α)
    (tr : Int × SensorHitMap α → ParticleTrack α) (l : IntMap (SensorHitMap α))
    (p : State α × Sums α)
    (hc : ∀ r, IntMap.find r p.1.successfulFitCounter = none →
      IntMap.find r p.1.failedFitCounter = none)
    (hr : IntMap.find p.1.run p.1.successfulFitCounter ≠ none) :
    ∀ r, IntMap.find r (step5Pure ext tr l p).1.successfulFitCounter = none →
      IntMap.find r (step5Pure ext tr l p).1.failedFitCounter = none := by
  induction l generalizing p with
  | nil => exact hc
  | cons a t ih =>
    obtain ⟨h1, h2⟩ := step5Body_inv ext (tr a) a p hc hr
    exact ih (step5Body ext (tr a) a p) h1 (by rw [step5Body_run]; exact h2)

/-- The invariant `StateWF` holds for a fresh analyzer and is kept by `analyze`, so it holds
before every event of every sequence of events. -/
theorem analyze_preserves_StateWF {α : Type} [LinearOrderedField α] (self : Analyzer α)
    (ext : External α) (st : State α) (event : Event α) (hw : StateWF st) :
    ∃ exit st', analyze self ext st event = some (exit, st') ∧ StateWF st' := by
  by_cases h1 : event.rd.hasDanger = true
  · exact ⟨_, _, analyze_dangerSkip self ext st event h1, hw⟩
  · have h1 : event.rd.hasDanger = false := by simpa using h1
    by_cases h2 : event.rd.run = -1
    · exact ⟨_, _, analyze_unmappedRunSkip self ext st event h1 h2, hw⟩
    · have hi := initFitCounters_inv (readRunData st event) hw.2
      by_cases h3 : trackerGood event.dwcs = false
      · refine ⟨_, _, analyze_trackerNotGoodSkip self ext st event h1 h2 h3, ?_⟩
        obtain ⟨L, S, e1, w1⟩ := fillRechits_frame self ext event.Rechits
          (initFitCounters (readRunData st event))
        have hS : SensorsWF (initFitCounters (readRunData st event)).Sensors := by
          unfold initFitCounters
          split <;> exact hw.1
        rw [e1]
        exact ⟨w1 hS, hi.1⟩
      · have hs : ¬ skipped event := by
          rw [skipped_iff]
          simp [h1, h2, h3]
        refine ⟨_, _, analyze_processed self ext st event hw.1 hs, ?_⟩
        obtain ⟨f1, _, f3, f4⟩ := loopStart_frame self ext st event
        refine ⟨⟨List.Pairwise.nil, fun _ h => absurd h (List.not_mem_nil _)⟩, ?_⟩
        apply step5Pure_inv
        · rw [f3, f4]; exact hi.1
        · rw [f3, f1]; exact hi.2

/-! ## The constructor -/

/-- C10: an unknown `weightingMethod` string selects `DEFAULTWEIGHTING`, an unknown
`fittingMethod` string selects `DEFAULTFITTING` (never `LINEFITANALYTICAL`), and each
recognised string selects the variant it names, and only that string does. -/
theorem constructor_policy_dispatch {α : Type} [LinearOrderedField α] (iConfig : ParameterSet α) :
    ((Position_Resolution_Analyzer iConfig).weightingMethod = .SQUAREDWEIGHTING ↔
        iConfig.weightingMethod = "squaredWeighting") ∧
    ((Position_Resolution_Analyzer iConfig).weightingMethod = .LINEARWEIGHTING ↔
        iConfig.weightingMethod = "linearWeighting") ∧
    ((Position_Resolution_Analyzer iConfig).weightingMethod = .LOGWEIGHTING_35_10 ↔
        iConfig.weightingMethod = "logWeighting_3.5_1.0") ∧
    ((Position_Resolution_Analyzer iConfig).weightingMethod = .DEFAULTWEIGHTING ↔
        (iConfig.weightingMethod ≠ "squaredWeighting" ∧
          iConfig.weightingMethod ≠ "linearWeighting" ∧
          iConfig.weightingMethod ≠ "logWeighting_3.5_1.0")) ∧
    ((Position_Resolution_Analyzer iConfig).fittingMethod = .LINEFITANALYTICAL ↔
        iConfig.fittingMethod = "lineAnalytical") ∧
    ((Position_Resolution_Analyzer iConfig).fittingMethod = .LINEFITTGRAPHERRORS ↔
        iConfig.fittingMethod = "lineTGraphErrors") ∧
    ((Position_Resolution_Analyzer iConfig).fittingMethod = .GBLTRACK ↔
        iConfig.fittingMethod = "gblTrack") ∧
    ((Position_Resolution_Analyzer iConfig).fittingMethod = .DEFAULTFITTING ↔
        (iConfig.fittingMethod ≠ "lineAnalytical" ∧
          iConfig.fittingMethod ≠ "lineTGraphErrors" ∧
          iConfig.fittingMethod ≠ "gblTrack")) := by
  simp only [Position_Resolution_Analyzer, readWeightingMethod, readFittingMethod]
  refine ⟨?_, ?_, ?_, ?_, ?_, ?_, ?_, ?_⟩ <;> split_ifs <;> simp_all

theorem fillTrack_fitPoint_layers {α : Type} (self : Analyzer α)
    (Sensors : IntMap (SensorHitMap α)) (h : SensorsWF Sensors) (it : Int × SensorHitMap α) :
    (fillTrack self Sensors it).fitPoints.map (fun s => s.layer) =
      (Sensors.map Prod.fst).filter (fun j => eligible self it.1 j) := by
  rw [(fillTrack_fitPoints self Sensors it).1, List.map_map, List.filter_map]
  apply List.map_congr_left
  intro jt hjt
  exact h.2 jt (List.mem_filter.1 hjt).1

/-! ## Step 4: the fit points of a track -/

/-- C1 (leave-one-out): for every event, each track that step 4 of `analyze` puts into
`Tracks` has a reference sensor whose layer is the key of the track, and no sensor added as a
fit point has the layer of the reference sensor; there is one such track for each entry of
`Sensors`.  This holds for every `nLayers` and either value of `useMWCReference`. -/
theorem leave_one_out {α : Type} [LinearOrderedField α] (self : Analyzer α) (ext : External α)
    (st : State α) (event : Event α) (hw : SensorsWF st.Sensors) :
    (∀ e ∈ fillTracks self (prepare self ext st event).Sensors,
      ∃ ref, e.2.referenceSensor = some ref ∧ ref.layer = e.1 ∧
        ∀ s ∈ e.2.fitPoints, s.layer ≠ ref.layer) ∧
    (∀ it ∈ (prepare self ext st event).Sensors,
      ∃ track, IntMap.find it.1 (fillTracks self (prepare self ext st event).Sensors) =
          some track ∧ track.referenceSensor = some it.2 ∧
        ∀ s ∈ track.fitPoints, s.layer ≠ it.1) := by
  have hS := prepare_wf self ext st event hw
  have key : ∀ it ∈ (prepare self ext st event).Sensors,
      ∀ s ∈ (fillTrack self (prepare self ext st event).Sensors it).fitPoints,
        s.layer ≠ it.1 := by
    intro it _ s hs
    obtain ⟨jt, _, _, hl, hel⟩ := fitPoint_layer_of_mem self _ hS it s hs
    rw [hl]
    intro hcontra
    simp [eligible, hcontra] at hel
  refine ⟨?_, ?_⟩
  · intro e he
    obtain ⟨it, hit, rfl⟩ := mem_fillTracks self _ e he
    refine ⟨it.2, (fillTrack_fitPoints self _ it).2, hS.2 it hit, ?_⟩
    intro s hs
    rw [hS.2 it hit]
    exact key it hit s hs
  · intro it hit
    exact ⟨_, fillTracks_find self _ hS it hit, (fillTrack_fitPoints self _ it).2,
      key it hit⟩

/-- Witness of C1: a fresh analyzer with three physical layers and the reference tracker
enabled, on an event with hits in layers 1 to 4. -/
theorem leave_one_out_witness :
    SensorsWF (State.fresh : State ℚ).Sensors ∧
    ((∀ e ∈ fillTracks (sampleAnalyzer 3 true)
        (prepare (sampleAnalyzer 3 true) (sampleExternal id) (State.fresh : State ℚ)
          (sampleEvent false true true true true sampleHits)).Sensors,
      ∃ ref, e.2.referenceSensor = some ref ∧ ref.layer = e.1 ∧
        ∀ s ∈ e.2.fitPoints, s.layer ≠ ref.layer) ∧
    (∀ it ∈ (prepare (sampleAnalyzer 3 true) (sampleExternal id) (State.fresh : State ℚ)
          (sampleEvent false true true true true sampleHits)).Sensors,
      ∃ track, IntMap.find it.1 (fillTracks (sampleAnalyzer 3 true)
          (prepare (sampleAnalyzer 3 true) (sampleExternal id) (State.fresh : State ℚ)
            (sampleEvent false true true true true sampleHits)).Sensors) =
          some track ∧ track.referenceSensor = some it.2 ∧
        ∀ s ∈ track.fitPoints, s.layer ≠ it.1)) :=
  ⟨⟨List.Pairwise.nil, fun _ h => absurd h (List.not_mem_nil _)⟩,
    leave_one_out (sampleAnalyzer 3 true) (sampleExternal id) State.fresh
      (sampleEvent false true true true true sampleHits)
      ⟨List.Pairwise.nil, fun _ h => absurd h (List.not_mem_nil _)⟩⟩

/-- C2 (fit-point eligibility): for every entry `it` of `Sensors`, with `i` its layer, the
layers of the fit points of the track of `i` are, in map order, (a) if `i ≤ nLayers` and
`useMWCReference`: all present layers `j > nLayers`; (b) if `i ≤ nLayers` and not
`useMWCReference`: all present layers `j ≤ nLayers` with `j ≠ i`; (c) if `i > nLayers` and
`useMWCReference`: all present layers `j ≤ nLayers`.  So with `useMWCReference` a physical
layer is fitted against reference-tracker layers only, and a reference-tracker layer against
physical layers only. -/
theorem fit_point_eligibility {α : Type} [LinearOrderedField α] (self : Analyzer α)
    (ext : External α) (st : State α) (event : Event α) (hw : SensorsWF st.Sensors)
    (it : Int × SensorHitMap α) (hit : it ∈ (prepare self ext st event).Sensors) :
    ∃ track, IntMap.find it.1 (fillTracks self (prepare self ext st event).Sensors) =
        some track ∧
      (it.1 ≤ self.nLayers ∧ self.useMWCReference = true →
        track.fitPoints.map (fun s => s.layer) =
          ((prepare self ext st event).Sensors.map Prod.fst).filter
            (fun j => decide (j > self.nLayers))) ∧
      (it.1 ≤ self.nLayers ∧ self.useMWCReference = false →
        track.fitPoints.map (fun s => s.layer) =
          ((prepare self ext st event).Sensors.map Prod.fst).filter
            (fun j => decide (j ≤ self.nLayers ∧ j ≠ it.1))) ∧
      (it.1 > self.nLayers ∧ self.useMWCReference = true →
        track.fitPoints.map (fun s => s.layer) =
          ((prepare self ext st event).Sensors.map Prod.fst).filter
            (fun j => decide (j ≤ self.nLayers))) ∧
      (self.useMWCReference = true → ∀ s ∈ track.fitPoints,
        (it.1 ≤ self.nLayers → s.layer > self.nLayers) ∧
          (it.1 > self.nLayers → s.layer ≤ self.nLayers)) := by
  have hS := prepare_wf self ext st event hw
  refine ⟨_, fillTracks_find self _ hS it hit, ?_, ?_, ?_, ?_⟩
  · rintro ⟨h1, h2⟩
    rw [fillTrack_fitPoint_layers self _ hS it]
    apply List.filter_congr
    intro j _
    by_cases hj : j > self.nLayers
    · have : it.1 ≠ j := by omega
      simp [eligible, h1, h2, hj, this]
    · simp [eligible, h1, h2, hj]
  · rintro ⟨h1, h2⟩
    rw [fillTrack_fitPoint_layers self _ hS it]
    apply List.filter_congr
    intro j _
    by_cases hj : j ≤ self.nLayers
    · by_cases hij : it.1 = j
      · simp [eligible, h1, h2, hj, hij]
      · simp [eligible, h1, h2, hj, hij, Ne.symm hij]
    · simp [eligible, h1, h2, hj]
  · rintro ⟨h1, h2⟩
    rw [fillTrack_fitPoint_layers self _ hS it]
    apply List.filter_congr
    intro j _
    have h1' : ¬ it.1 ≤ self.nLayers := by omega
    by_cases hj : j ≤ self.nLayers
    · have : it.1 ≠ j := by omega
      simp [eligible, h1', h2, hj, this]
    · simp [eligible, h1', h2, hj]
  · intro h2 s hs
    obtain ⟨jt, _, _, hl, hel⟩ := fitPoint_layer_of_mem self _ hS it s hs
    rw [hl]
    constructor
    · intro h1
      have := hel
      simp only [eligible, h1, h2, if_true, Bool.true_and, Bool.not_true, Bool.false_and,
        Bool.or_false, Bool.and_eq_true, decide_eq_true_eq] at this
      exact this.2
    · intro h1
      have h1' : ¬ it.1 ≤ self.nLayers := by omega
      have := hel
      simp only [eligible, h1', h2, if_false, Bool.true_and, Bool.and_eq_true,
        decide_eq_true_eq] at this
      exact this.2

/-- Witness of C2: layer 1 of a three-layer setup with the reference tracker enabled, on an
event with hits in layers 1 to 4; its fit points are the layers 4, 5 and 6. -/
theorem fit_point_eligibility_witness :
    SensorsWF (State.fresh : State ℚ).Sensors ∧
    ∃ it ∈ (prepare (sampleAnalyzer 3 true) (sampleExternal id) (State.fresh : State ℚ)
        (sampleEvent false true true true true sampleHits)).Sensors,
      it.1 = 1 ∧
      ∃ track, IntMap.find it.1 (fillTracks (sampleAnalyzer 3 true)
          (prepare (sampleAnalyzer 3 true) (sampleExternal id) (State.fresh : State ℚ)
            (sampleEvent false true true true true sampleHits)).Sensors) = some track ∧
        track.fitPoints.map (fun s => s.layer) = [4, 5, 6] := by
  have hw : SensorsWF (State.fresh : State ℚ).Sensors :=
    ⟨List.Pairwise.nil, fun _ h => absurd h (List.not_mem_nil _)⟩
  have hkey : ((prepare (sampleAnalyzer 3 true) (sampleExternal id) (State.fresh : State ℚ)
      (sampleEvent false true true true true sampleHits)).Sensors.get
        ⟨0, by decide!⟩).1 = 1 := by
    decide!
  obtain ⟨track, h1, h2, -, -, -⟩ :=
    fit_point_eligibility (sampleAnalyzer 3 true) (sampleExternal id) State.fresh
      (sampleEvent false true true true true sampleHits) hw _ (List.get_mem _ 0 (by decide!))
  refine ⟨hw, _, List.get_mem _ 0 (by decide!), hkey, track, h1, ?_⟩
  rw [h2 ⟨by rw [hkey]; decide, rfl⟩]
  decide!

/-! ## Skipped and processed events -/

theorem analyze_no_layers {α : Type} [LinearOrderedField α] (self : Analyzer α)
    (ext : External α) (st : State α) (event : Event α) (hw : StateWF st)
    (hs : ¬ skipped event) (hS : (prepare self ext st event).Sensors = []) :
    ∃ st', analyze self ext st event = some (.completed, st') ∧ st'.outTree = st.outTree ∧
      ∀ r, IntMap.value st'.successfulFitCounter r = IntMap.value st.successfulFitCounter r ∧
        IntMap.value st'.failedFitCounter r = IntMap.value st.failedFitCounter r := by
  have hp := analyze_processed self ext st event hw.1 hs
  have hloop : step5Pure ext (fillTrack self (prepare self ext st event).Sensors)
      (prepare self ext st event).Sensors (loopStart self ext st event) =
      loopStart self ext st event := by
    rw [hS]
    rfl
  rw [hloop] at hp
  obtain ⟨_, f2, f3, f4⟩ := loopStart_frame self ext st event
  refine ⟨_, hp, f2, ?_⟩
  intro r
  have hv := initFitCounters_value (readRunData st event) hw.2 r
  exact ⟨(congrArg (fun m => IntMap.value m r) f3).trans hv.1,
    (congrArg (fun m => IntMap.value m r) f4).trans hv.2⟩

/-- C4 as amended (event skip condition): `analyze` leaves through one of its early returns
exactly when the danger flag is set, or `run == -1`, or one of the planes 0, 1, 3 of the
reference tracker is not a good measurement.  A skipped event writes no entry to the tree
and leaves the value of both fit counters unchanged for every run; an event that is not
skipped runs the loop of step 5 over all layers of `Sensors` and raises the sum of both
counters of its run by their number.  Hence an event writes no entry and changes neither
counter exactly when it is skipped or `Sensors` holds no layer at step 4.  The flag of plane
2 has no influence on the outcome. -/
theorem event_skip_condition {α : Type} [LinearOrderedField α] (self : Analyzer α)
    (ext : External α) (st : State α) (event : Event α) (hw : StateWF st) :
    (∃ exit st', analyze self ext st event = some (exit, st') ∧
      (exit ≠ .completed ↔ skipped event) ∧
      (skipped event → st'.outTree = st.outTree ∧
        ∀ r, IntMap.value st'.successfulFitCounter r = IntMap.value st.successfulFitCounter r ∧
          IntMap.value st'.failedFitCounter r = IntMap.value st.failedFitCounter r) ∧
      (¬ skipped event →
        IntMap.value st'.successfulFitCounter event.rd.run +
            IntMap.value st'.failedFitCounter event.rd.run =
          IntMap.value st.successfulFitCounter event.rd.run +
            IntMap.value st.failedFitCounter event.rd.run +
            (prepare self ext st event).Sensors.length) ∧
      ((st'.outTree = st.outTree ∧
          ∀ r, IntMap.value st'.successfulFitCounter r =
              IntMap.value st.successfulFitCounter r ∧
            IntMap.value st'.failedFitCounter r = IntMap.value st.failedFitCounter r) ↔
        (skipped event ∨ (prepare self ext st event).Sensors = []))) ∧
    (∀ good2 : Bool,
      analyze self ext st
          { event with
            dwcs := { event.dwcs with
              at2 := { event.dwcs.at2 with goodMeasurement := good2 } } } =
        analyze self ext st event) ∧
    (∀ good2 : Bool,
      skipped { event with
          dwcs := { event.dwcs with
            at2 := { event.dwcs.at2 with goodMeasurement := good2 } } } ↔
        skipped event) := by
  refine ⟨?_, fun _ => rfl, fun _ => Iff.rfl⟩
  by_cases hs : skipped event
  · obtain ⟨exit, st', h1, h2, h3, h4⟩ := analyze_skip_frame self ext st event hw hs
    exact ⟨exit, st', h1, ⟨fun _ => hs, fun _ => h2⟩, fun _ => ⟨h3, h4⟩,
      fun hn => absurd hs hn, ⟨fun _ => Or.inl hs, fun _ => ⟨h3, h4⟩⟩⟩
  · obtain ⟨st', h1, h2⟩ := analyze_total_count self ext st event hw hs
    refine ⟨.completed, st', h1, ⟨fun h => absurd rfl h, fun h => absurd h hs⟩,
      fun h => absurd h hs, fun _ => h2, ?_⟩
    constructor
    · rintro ⟨_, hv⟩
      right
      rw [(hv event.rd.run).1, (hv event.rd.run).2] at h2
      have hlen : (prepare self ext st event).Sensors.length = 0 := by omega
      exact List.length_eq_zero.1 hlen
    · rintro (h | hS)
      · exact absurd h hs
      · obtain ⟨st2, e1, e2, e3⟩ := analyze_no_layers self ext st event hw hs hS
        rw [h1] at e1
        have : st' = st2 := by
          have := Option.some.inj e1
          exact (Prod.mk.inj this).2
        rw [this]
        exact ⟨e2, e3⟩

/-- Witness of C4 as amended: a fresh analyzer and an event whose plane 2 is not a good
measurement while planes 0, 1 and 3 are; the event is processed. -/
theorem event_skip_condition_witness :
    StateWF (State.fresh : State ℚ) ∧
    ¬ skipped (sampleEvent false true true false true (sampleHits : List (Rechit ℚ))) ∧
    ∃ st', analyze (sampleAnalyzer 3 false) (sampleExternal id) (State.fresh : State ℚ)
        (sampleEvent false true true false true sampleHits) = some (.completed, st') ∧
      IntMap.value st'.successfulFitCounter 1 + IntMap.value st'.failedFitCounter 1 = 4 := by
  have hw : StateWF (State.fresh : State ℚ) :=
    ⟨⟨List.Pairwise.nil, fun _ h => absurd h (List.not_mem_nil _)⟩, fun _ _ => rfl⟩
  have hn : ¬ skipped (sampleEvent false true true false true (sampleHits : List (Rechit ℚ))) := by
    simp [skipped, sampleEvent, samplePlane]
  obtain ⟨⟨exit, st', h1, h2, -, h4, -⟩, -, -⟩ :=
    event_skip_condition (sampleAnalyzer 3 false) (sampleExternal id) (State.fresh : State ℚ)
      (sampleEvent false true true false true sampleHits) hw
  have he : exit = .completed := by
    by_contra hc
    exact hn (h2.1 hc)
  subst he
  refine ⟨hw, hn, st', h1, ?_⟩
  have h5 := h4 hn
  rw [show (sampleEvent false true true false true (sampleHits : List (Rechit ℚ))).rd.run = 1
    from rfl] at h5
  rw [h5]
  decide!

/-- C4 as stated fails: a three-layer setup without the reference tracker, on an event with
no flag set, a mapped run, all planes good and an empty raw hit collection.  The event is
not skipped and `analyze` runs to its end, but `Sensors` holds no layer, so no entry is
written and neither counter of the run changes, as for a skipped event. -/
theorem event_skip_condition_counterexample :
    ¬ skipped (sampleEvent false true true true true ([] : List (Rechit ℚ))) ∧
    (analyze (sampleAnalyzer 3 false) (sampleExternal id) (State.fresh : State ℚ)
        (sampleEvent false true true true true [])).map
      (fun r => (r.1, r.2.outTree.length, IntMap.value r.2.successfulFitCounter 1,
        IntMap.value r.2.failedFitCounter 1)) = some (.completed, 0, 0, 0) ∧
    ((State.fresh : State ℚ).outTree.length,
      IntMap.value (State.fresh : State ℚ).successfulFitCounter 1,
      IntMap.value (State.fresh : State ℚ).failedFitCounter 1) = (0, 0, 0) := by
  refine ⟨by simp [skipped, sampleEvent, samplePlane], by decide!, by decide!⟩

/-- C5 (fit-failure accounting): in an event that is not skipped, handling the `k`-th layer
of `Sensors` raises exactly one of the two counters of the run by one: the failed-fit counter
if the prediction of the layer's track is the all-zero tuple, in which case no entry is
written to the tree, and the successful-fit counter otherwise; the loop then goes on with
the next layer.  Over the whole event the sum of both counters of the run rises by the
number of layers in `Sensors`. -/
theorem fit_failure_accounting {α : Type} [LinearOrderedField α] (self : Analyzer α)
    (ext : External α) (st : State α) (event : Event α) (hw : StateWF st)
    (hp : ¬ skipped event) :
    (∀ (k : Nat) (hk : k < (prepare self ext st event).Sensors.length),
      ∃ track p q,
        IntMap.find ((prepare self ext st event).Sensors.get ⟨k, hk⟩).1
            (fillTracks self (prepare self ext st event).Sensors) = some track ∧
        afterLayers self ext st event ((prepare self ext st event).Sensors.take k) = some p ∧
        afterLayers self ext st event ((prepare self ext st event).Sensors.take (k + 1)) =
          some q ∧
        (allZero ext track →
          IntMap.value q.1.failedFitCounter event.rd.run =
              IntMap.value p.1.failedFitCounter event.rd.run + 1 ∧
            IntMap.value q.1.successfulFitCounter event.rd.run =
              IntMap.value p.1.successfulFitCounter event.rd.run ∧
            q.1.outTree = p.1.outTree) ∧
        (¬ allZero ext track →
          IntMap.value q.1.successfulFitCounter event.rd.run =
              IntMap.value p.1.successfulFitCounter event.rd.run + 1 ∧
            IntMap.value q.1.failedFitCounter event.rd.run =
              IntMap.value p.1.failedFitCounter event.rd.run)) ∧
    ∃ st', analyze self ext st event = some (.completed, st') ∧
      IntMap.value st'.successfulFitCounter event.rd.run +
          IntMap.value st'.failedFitCounter event.rd.run =
        IntMap.value st.successfulFitCounter event.rd.run +
          IntMap.value st.failedFitCounter event.rd.run +
          (prepare self ext st event).Sensors.length := by
  refine ⟨?_, analyze_total_count self ext st event hw hp⟩
  intro k hk
  obtain ⟨p, h1, h2, h3, hrun, -⟩ := afterLayers_step self ext st event hw.1 k hk
  refine ⟨_, p, _, h3, h1, h2, ?_, ?_⟩
  · intro hz
    obtain ⟨e1, e2, e3⟩ := step5Body_counters_failed ext _
      ((prepare self ext st event).Sensors.get ⟨k, hk⟩) p hz
    rw [e1, e2, e3, IntMap.value_increment, hrun]
    simp
  · intro hz
    obtain ⟨e1, e2⟩ := step5Body_counters_ok ext _
      ((prepare self ext st event).Sensors.get ⟨k, hk⟩) p hz
    rw [e1, e2, IntMap.value_increment, hrun]
    simp

/-- Witness of C5: a fresh analyzer with three physical layers on an event with hits in
layers 1 to 4; the two counters of run 1 add up to 4 afterwards. -/
theorem fit_failure_accounting_witness :
    StateWF (State.fresh : State ℚ) ∧
    ¬ skipped (sampleEvent false true true true true (sampleHits : List (Rechit ℚ))) ∧
    ∃ st', analyze (sampleAnalyzer 3 false) (sampleExternal id) (State.fresh : State ℚ)
        (sampleEvent false true true true true sampleHits) = some (.completed, st') ∧
      IntMap.value st'.successfulFitCounter 1 + IntMap.value st'.failedFitCounter 1 = 4 := by
  have hw : StateWF (State.fresh : State ℚ) :=
    ⟨⟨List.Pairwise.nil, fun _ h => absurd h (List.not_mem_nil _)⟩, fun _ _ => rfl⟩
  have hn : ¬ skipped (sampleEvent false true true true true (sampleHits : List (Rechit ℚ))) := by
    simp [skipped, sampleEvent, samplePlane]
  obtain ⟨-, st', h1, h2⟩ :=
    fit_failure_accounting (sampleAnalyzer 3 false) (sampleExternal id)
      (State.fresh : State ℚ) (sampleEvent false true true true true sampleHits) hw hn
  refine ⟨hw, hn, st', h1, ?_⟩
  rw [show (sampleEvent false true true true true (sampleHits : List (Rechit ℚ))).rd.run = 1
    from rfl] at h2
  rw [h2]
  decide!

/-- C6 (record emission): for every event `analyze` appends at most one entry to the tree;
it appends one exactly when the event is not skipped, layer 1 is present in `Sensors`, the
prediction of the track of layer 1 is not the all-zero tuple, and `chi2_x < 10` and
`chi2_y < 10` for that track.  Every entry written has `layer == 1`. -/
theorem record_emission {α : Type} [LinearOrderedField α] (self : Analyzer α)
    (ext : External α) (st : State α) (event : Event α) (hw : StateWF st) :
    ∃ exit st' new, analyze self ext st event = some (exit, st') ∧
      st'.outTree = st.outTree ++ new ∧ new.length ≤ 1 ∧ (∀ e ∈ new, e.layer = 1) ∧
      (new.length = 1 ↔
        ¬ skipped event ∧
          ∃ s track, IntMap.find 1 (prepare self ext st event).Sensors = some s ∧
            IntMap.find 1 (fillTracks self (prepare self ext st event).Sensors) = some track ∧
            ¬ allZero ext track ∧ ext.getChi2 track 1 < 10 ∧ ext.getChi2 track 2 < 10) := by
  by_cases hs : skipped event
  · obtain ⟨exit, st', h1, _, h3, _⟩ := analyze_skip_frame self ext st event hw hs
    refine ⟨exit, st', [], h1, by simp [h3], by simp, by simp, ?_⟩
    simp [hs]
  · have hS := prepare_wf self ext st event hw.1
    obtain ⟨new, h1, h2, h3, h4⟩ := step5Pure_outTree ext
      (fillTrack self (prepare self ext st event).Sensors) (prepare self ext st event).Sensors
      hS.1 (loopStart self ext st event)
    rw [(loopStart_frame self ext st event).2.1] at h1
    refine ⟨_, _, new, analyze_processed self ext st event hw.1 hs, h1, h3, h2, ?_⟩
    rw [h4]
    constructor
    · rintro ⟨it, hit, hk, hz, hx, hy⟩
      refine ⟨hs, it.2, _, ?_, ?_, hz, hx, hy⟩
      · rw [IntMap.find_eq_some_iff _ hS.1, ← hk]
        exact hit
      · rw [← hk]
        exact fillTracks_find self _ hS it hit
    · rintro ⟨_, s, track, hf, ht, hz, hx, hy⟩
      have hmem := (IntMap.find_eq_some_iff _ hS.1 1 s).1 hf
      have ht2 := fillTracks_find self _ hS (1, s) hmem
      rw [ht] at ht2
      have ht3 : track = fillTrack self (prepare self ext st event).Sensors (1, s) :=
        Option.some.inj ht2
      rw [ht3] at hz hx hy
      exact ⟨(1, s), hmem, rfl, hz, hx, hy⟩

/-- Witness of C6: a fresh analyzer with three physical layers on an event with hits in
layers 1 to 4 writes exactly one entry, for layer 1. -/
theorem record_emission_witness :
    StateWF (State.fresh : State ℚ) ∧
    ∃ exit st' new, analyze (sampleAnalyzer 3 false) (sampleExternal id) (State.fresh : State ℚ)
        (sampleEvent false true true true true sampleHits) = some (exit, st') ∧
      st'.outTree = (State.fresh : State ℚ).outTree ++ new ∧ new.length ≤ 1 ∧
      (∀ e ∈ new, e.layer = 1) ∧ st'.outTree.length = 1 := by
  have hw : StateWF (State.fresh : State ℚ) :=
    ⟨⟨List.Pairwise.nil, fun _ h => absurd h (List.not_mem_nil _)⟩, fun _ _ => rfl⟩
  obtain ⟨exit, st', new, h1, h2, h3, h4, -⟩ :=
    record_emission (sampleAnalyzer 3 false) (sampleExternal id) (State.fresh : State ℚ)
      (sampleEvent false true true true true sampleHits) hw
  refine ⟨hw, exit, st', new, h1, h2, h3, h4, ?_⟩
  have hlen : (analyze (sampleAnalyzer 3 false) (sampleExternal id) (State.fresh : State ℚ)
      (sampleEvent false true true true true sampleHits)).map (fun r => r.2.outTree.length) =
      some 1 := by decide!
  rw [h1] at hlen
  exact Option.some.inj hlen

/-! ## State kept between events -/

/-- C3, evaluated on two events for an eight-layer setup with the reference tracker enabled:
the first event has one hit of energy 5 in layer 1 and plane 0 of the tracker not good, the
second has one hit of energy 2 in layer 1 and a good tracker.  The first event leaves through
the tracker test with layer 1 still in `Sensors`; the second event then finds that
accumulator, adds its hit to it, and writes an entry with `layerEnergy = 7`, where the same
event on a fresh analyzer writes `layerEnergy = 2`. -/
theorem sensors_kept_after_tracker_skip :
    (analyze (sampleAnalyzer 8 true) (sampleExternal id) (State.fresh : State ℚ)
        (sampleEvent false false true true true
          [{ layer := 1, cell := (2, 3), energy := 5 }])).map
      (fun r => (r.1, r.2.Sensors.map Prod.fst, r.2.Sensors.map (fun it => it.2.hits.length))) =
        some (.trackerNotGoodSkip, [1], [1]) ∧
    ((analyze (sampleAnalyzer 8 true) (sampleExternal id) (State.fresh : State ℚ)
        (sampleEvent false false true true true
          [{ layer := 1, cell := (2, 3), energy := 5 }])).map
      (fun r => (fillRechits (sampleAnalyzer 8 true) (sampleExternal id)
        (initFitCounters (readRunData r.2
          (sampleEvent false true true true true
            [{ layer := 1, cell := (4, 1), energy := 2 }])))
        [{ layer := 1, cell := (4, 1), energy := 2 }]).Sensors.map
          (fun it => (it.1, it.2.hits.map (fun h => h.1.energy))))) =
        some [(1, [5, 2])] ∧
    ((analyze (sampleAnalyzer 8 true) (sampleExternal id) (State.fresh : State ℚ)
        (sampleEvent false false true true true
          [{ layer := 1, cell := (2, 3), energy := 5 }])).bind
      (fun r => analyze (sampleAnalyzer 8 true) (sampleExternal id) r.2
        (sampleEvent false true true true true
          [{ layer := 1, cell := (4, 1), energy := 2 }]))).map
      (fun r => (r.1, r.2.outTree.map (fun e => (e.layer, e.layerEnergy)))) =
        some (.completed, [(1, 7)]) ∧
    (analyze (sampleAnalyzer 8 true) (sampleExternal id) (State.fresh : State ℚ)
        (sampleEvent false true true true true
          [{ layer := 1, cell := (4, 1), energy := 2 }])).map
      (fun r => (r.1, r.2.outTree.map (fun e => (e.layer, e.layerEnergy)))) =
        some (.completed, [(1, 2)]) := by
  refine ⟨?_, ?_, ?_, ?_⟩ <;> decide!

/-- The exits of `analyze` and the map `Sensors`: it is empty after the end of the function
body, it is the map the event started with after the danger-flag and the unmapped-run
return, and after the return at the tracker test it is the map filled by step 1. -/
theorem sensors_at_exit {α : Type} [LinearOrderedField α] (self : Analyzer α)
    (ext : External α) (st : State α) (event : Event α) (hw : StateWF st) :
    ∃ exit st', analyze self ext st event = some (exit, st') ∧
      (exit = .completed → st'.Sensors = []) ∧
      (exit = .dangerSkip ∨ exit = .unmappedRunSkip → st'.Sensors = st.Sensors) ∧
      (exit = .trackerNotGoodSkip →
        st'.Sensors =
          (fillRechits self ext (initFitCounters (readRunData st event)) event.Rechits).Sensors)
      := by
  by_cases h1 : event.rd.hasDanger = true
  · exact ⟨_, _, analyze_dangerSkip self ext st event h1, by simp, fun _ => rfl, by simp⟩
  · have h1 : event.rd.hasDanger = false := by simpa using h1
    by_cases h2 : event.rd.run = -1
    · exact ⟨_, _, analyze_unmappedRunSkip self ext st event h1 h2, by simp, fun _ => rfl,
        by simp⟩
    · by_cases h3 : trackerGood event.dwcs = false
      · exact ⟨_, _, analyze_trackerNotGoodSkip self ext st event h1 h2 h3, by simp, by simp,
          fun _ => rfl⟩
      · have hs : ¬ skipped event := by
          rw [skipped_iff]
          simp [h1, h2, h3]
        exact ⟨_, _, analyze_processed self ext st event hw.1 hs, fun _ => rfl, by simp,
          by simp⟩

/-! ## Running averages, cutoff and deviation -/

/-- C7 as amended (running averages): when the `k`-th layer of `Sensors`, of index `L`, is
handled in the loop of step 5, then (a) if `L ≤ 6` and its fit did not fail,
`average_x_predicted` and `average_y_predicted` are afterwards the energy-weighted means of
the predicted positions over the layers handled so far, which are the layers of `Sensors`
with index at most `L`; if moreover no layer handled before had a failed fit,
`average_x_true` and `average_y_true` are the energy-weighted means of the true positions
over the same layers; and `average_deltaX`, `average_deltaY` are the differences true minus
predicted of the averages; (b) if its fit failed, all six averages are left as they were
before the layer. -/
theorem running_averages {α : Type} [LinearOrderedField α] (self : Analyzer α)
    (ext : External α) (st : State α) (event : Event α) (hw : SensorsWF st.Sensors) (k : Nat)
    (hk : k < (prepare self ext st event).Sensors.length) :
    ∃ p q,
      afterLayers self ext st event ((prepare self ext st event).Sensors.take k) = some p ∧
      afterLayers self ext st event ((prepare self ext st event).Sensors.take (k + 1)) =
        some q ∧
      (¬ allZero ext (fillTrack self (prepare self ext st event).Sensors
            ((prepare self ext st event).Sensors.get ⟨k, hk⟩)) →
          ((prepare self ext st event).Sensors.get ⟨k, hk⟩).1 ≤ 6 →
        q.1.average_x_predicted =
          weightedMean ext
            (fun jt => (ext.calculateReferenceXY
              (fillTrack self (prepare self ext st event).Sensors jt)).1)
            ((prepare self ext st event).Sensors.take (k + 1)) ∧
        q.1.average_y_predicted =
          weightedMean ext
            (fun jt => (ext.calculateReferenceXY
              (fillTrack self (prepare self ext st event).Sensors jt)).2)
            ((prepare self ext st event).Sensors.take (k + 1)) ∧
        ((∀ jt ∈ (prepare self ext st event).Sensors.take k,
            ¬ allZero ext (fillTrack self (prepare self ext st event).Sensors jt)) →
          q.1.average_x_true =
              weightedMean ext (fun jt => (ext.getLabHitPosition jt.2).1)
                ((prepare self ext st event).Sensors.take (k + 1)) ∧
            q.1.average_y_true =
              weightedMean ext (fun jt => (ext.getLabHitPosition jt.2).2)
                ((prepare self ext st event).Sensors.take (k + 1))) ∧
        q.1.average_deltaX = q.1.average_x_true - q.1.average_x_predicted ∧
        q.1.average_deltaY = q.1.average_y_true - q.1.average_y_predicted) ∧
      (allZero ext (fillTrack self (prepare self ext st event).Sensors
            ((prepare self ext st event).Sensors.get ⟨k, hk⟩)) →
        q.1.average_x_predicted = p.1.average_x_predicted ∧
          q.1.average_y_predicted = p.1.average_y_predicted ∧
          q.1.average_x_true = p.1.average_x_true ∧
          q.1.average_y_true = p.1.average_y_true ∧
          q.1.average_deltaX = p.1.average_deltaX ∧
          q.1.average_deltaY = p.1.average_deltaY) ∧
      (∀ jt ∈ (prepare self ext st event).Sensors,
        jt ∈ (prepare self ext st event).Sensors.take (k + 1) ↔
          jt.1 ≤ ((prepare self ext st event).Sensors.get ⟨k, hk⟩).1) := by
  obtain ⟨p, h1, h2, _, _, hp⟩ := afterLayers_step self ext st event hw k hk
  refine ⟨p, _, h1, h2, ?_, fun hz => step5Body_averages_failed ext _ _ p hz,
    fun jt hjt => mem_take_succ_iff _ (prepare_wf self ext st event hw).1 k hk jt hjt⟩
  intro hok h6
  have hq := step5Body_averages_low ext _ ((prepare self ext st event).Sensors.get ⟨k, hk⟩) p
    hok h6
  obtain ⟨b1, b2, b3, b4⟩ := step5Body_sums ext
    (fillTrack self (prepare self ext st event).Sensors
      ((prepare self ext st event).Sensors.get ⟨k, hk⟩))
    ((prepare self ext st event).Sensors.get ⟨k, hk⟩) p
  obtain ⟨s1, s2, s3, s4⟩ := step5Pure_sums ext
    (fillTrack self (prepare self ext st event).Sensors)
    ((prepare self ext st event).Sensors.take k) (loopStart self ext st event)
  rw [← hp] at s1 s2 s3 s4
  have z1 : (loopStart self ext st event).2.sum_energy = 0 := rfl
  have z2 : (loopStart self ext st event).2.sum_x_predicted = 0 := rfl
  have z3 : (loopStart self ext st event).2.sum_y_predicted = 0 := rfl
  have z4 : (loopStart self ext st event).2.sum_x_true = 0 := rfl
  have z5 : (loopStart self ext st event).2.sum_y_true = 0 := rfl
  rw [z1, zero_add] at s1
  rw [z2, zero_add] at s2
  rw [z3, zero_add] at s3
  rw [z4, z5, zero_add, zero_add] at s4
  refine ⟨?_, ?_, ?_, hq.2.2.2.2.1, hq.2.2.2.2.2⟩
  · rw [hq.1, b1, b2, s1, s2]
    rw [take_succ_get _ k hk]
    simp only [weightedMean, List.map_append, List.sum_append, List.map_cons, List.map_nil,
      List.sum_cons, List.sum_nil, add_zero]
  · rw [hq.2.1, b1, b3, s1, s3]
    rw [take_succ_get _ k hk]
    simp only [weightedMean, List.map_append, List.sum_append, List.map_cons, List.map_nil,
      List.sum_cons, List.sum_nil, add_zero]
  · intro hall
    obtain ⟨c1, c2⟩ := b4 hok
    obtain ⟨d1, d2⟩ := s4 hall
    constructor
    · rw [hq.2.2.1, b1, c1, s1, d1]
      rw [take_succ_get _ k hk]
      simp only [weightedMean, List.map_append, List.sum_append, List.map_cons, List.map_nil,
        List.sum_cons, List.sum_nil, add_zero]
    · rw [hq.2.2.2.1, b1, c2, s1, d2]
      rw [take_succ_get _ k hk]
      simp only [weightedMean, List.map_append, List.sum_append, List.map_cons, List.map_nil,
        List.sum_cons, List.sum_nil, add_zero]

/-- Witness of C7 as amended: layer 2 of a three-layer setup on an event with hits in layers
1 to 4; after it is handled `average_x_true` is (2·5 + 4·7) / (5 + 7). -/
theorem running_averages_witness :
    SensorsWF (State.fresh : State ℚ).Sensors ∧
    ∃ q, afterLayers (sampleAnalyzer 3 false) (sampleExternal id) (State.fresh : State ℚ)
        (sampleEvent false true true true true sampleHits)
        ((prepare (sampleAnalyzer 3 false) (sampleExternal id) (State.fresh : State ℚ)
          (sampleEvent false true true true true sampleHits)).Sensors.take 2) = some q ∧
      q.1.layer = 2 ∧ q.1.average_x_true = 19 / 6 := by
  have hw : SensorsWF (State.fresh : State ℚ).Sensors :=
    ⟨List.Pairwise.nil, fun _ h => absurd h (List.not_mem_nil _)⟩
  obtain ⟨p, q, -, h1, h3, -, -⟩ :=
    running_averages (sampleAnalyzer 3 false) (sampleExternal id) (State.fresh : State ℚ)
      (sampleEvent false true true true true sampleHits) hw 1 (by decide!)
  obtain ⟨-, -, h4, -, -⟩ := h3 (by decide!) (by decide!)
  have hl : (afterLayers (sampleAnalyzer 3 false) (sampleExternal id) (State.fresh : State ℚ)
      (sampleEvent false true true true true sampleHits)
      ((prepare (sampleAnalyzer 3 false) (sampleExternal id) (State.fresh : State ℚ)
        (sampleEvent false true true true true sampleHits)).Sensors.take 2)).map
      (fun q => q.1.layer) = some 2 := by decide!
  rw [h1] at hl
  refine ⟨hw, q, h1, Option.some.inj hl, ?_⟩
  rw [(h4 (by decide!)).1]
  decide!

/-- C7 as stated fails: an eight-layer setup without the reference tracker, on an event with
one hit in layer 1 and one in layer 2, both within `1..nLayers`.  The track of layer 1 has
the single fit point of layer 2, so its prediction is all-zero and the loop goes on to the
next layer before the averages are assigned: after layer 1 (index at most 6) is handled,
`average_x_true` is what it was before the event, 0 on a fresh analyzer and 20/7 after an
earlier event with hits in layers 1, 2 and 3, while the energy-weighted mean of the true
positions over the layers up to 1 is 2. -/
theorem running_averages_counterexample :
    ((prepare (sampleAnalyzer 8 false) (sampleExternal id) (State.fresh : State ℚ)
        (sampleEvent false true true true true
          [{ layer := 1, cell := (2, 3), energy := 5 },
           { layer := 2, cell := (4, 1), energy := 7 }])).Sensors.map Prod.fst = [1, 2] ∧
      (2 : Int) ≤ (sampleAnalyzer 8 false : Analyzer ℚ).nLayers) ∧
    (afterLayers (sampleAnalyzer 8 false) (sampleExternal id) (State.fresh : State ℚ)
        (sampleEvent false true true true true
          [{ layer := 1, cell := (2, 3), energy := 5 },
           { layer := 2, cell := (4, 1), energy := 7 }])
        ((prepare (sampleAnalyzer 8 false) (sampleExternal id) (State.fresh : State ℚ)
          (sampleEvent false true true true true
            [{ layer := 1, cell := (2, 3), energy := 5 },
             { layer := 2, cell := (4, 1), energy := 7 }])).Sensors.take 1)).map
      (fun q => (q.1.layer, q.1.average_x_true)) = some (1, 0) ∧
    weightedMean (sampleExternal id) (fun jt => ((sampleExternal id).getLabHitPosition jt.2).1)
      ((prepare (sampleAnalyzer 8 false) (sampleExternal id) (State.fresh : State ℚ)
        (sampleEvent false true true true true
          [{ layer := 1, cell := (2, 3), energy := 5 },
           { layer := 2, cell := (4, 1), energy := 7 }])).Sensors.take 1) = 2 ∧
    (analyze (sampleAnalyzer 8 false) (sampleExternal id) (State.fresh : State ℚ)
        (sampleEvent false true true true true
          [{ layer := 1, cell := (2, 3), energy := 5 },
           { layer := 2, cell := (4, 1), energy := 7 },
           { layer := 3, cell := (1, 1), energy := 2 }])).map
      (fun r =>
        (afterLayers (sampleAnalyzer 8 false) (sampleExternal id) r.2
          (sampleEvent false true true true true
            [{ layer := 1, cell := (2, 3), energy := 5 },
             { layer := 2, cell := (4, 1), energy := 7 }])
          ((prepare (sampleAnalyzer 8 false) (sampleExternal id) r.2
            (sampleEvent false true true true true
              [{ layer := 1, cell := (2, 3), energy := 5 },
               { layer := 2, cell := (4, 1), energy := 7 }])).Sensors.take 1)).map
          (fun q => (q.1.layer, q.1.average_x_true))) = some (some (1, 20 / 7)) ∧
    (0 : ℚ) ≠ 2 ∧ (20 / 7 : ℚ) ≠ 2 := by
  refine ⟨⟨by decide!, by decide!⟩, ?_, ?_, ?_, ?_, ?_⟩ <;> decide!

/-- C8 as amended (running-average cutoff): when the `k`-th layer of `Sensors` is handled in
the loop of step 5, then (a) if its fit did not fail and its index is above 6, all six
running averages are exactly -999 afterwards; (b) if its fit did not fail and its index is at
most 6, the four position averages are the quotients of the sums by the summed energy and
the two delta averages their differences; (c) if its fit failed, all six running averages
keep the values they had before the layer, whatever its index. -/
theorem running_average_cutoff {α : Type} [LinearOrderedField α] (self : Analyzer α)
    (ext : External α) (st : State α) (event : Event α) (hw : SensorsWF st.Sensors) (k : Nat)
    (hk : k < (prepare self ext st event).Sensors.length) :
    ∃ p q,
      afterLayers self ext st event ((prepare self ext st event).Sensors.take k) = some p ∧
      afterLayers self ext st event ((prepare self ext st event).Sensors.take (k + 1)) =
        some q ∧
      (¬ allZero ext (fillTrack self (prepare self ext st event).Sensors
            ((prepare self ext st event).Sensors.get ⟨k, hk⟩)) →
          6 < ((prepare self ext st event).Sensors.get ⟨k, hk⟩).1 →
        q.1.average_x_predicted = -999 ∧ q.1.average_y_predicted = -999 ∧
          q.1.average_x_true = -999 ∧ q.1.average_y_true = -999 ∧
          q.1.average_deltaX = -999 ∧ q.1.average_deltaY = -999) ∧
      (¬ allZero ext (fillTrack self (prepare self ext st event).Sensors
            ((prepare self ext st event).Sensors.get ⟨k, hk⟩)) →
          ((prepare self ext st event).Sensors.get ⟨k, hk⟩).1 ≤ 6 →
        q.1.average_x_predicted = q.2.sum_x_predicted / q.2.sum_energy ∧
          q.1.average_y_predicted = q.2.sum_y_predicted / q.2.sum_energy ∧
          q.1.average_x_true = q.2.sum_x_true / q.2.sum_energy ∧
          q.1.average_y_true = q.2.sum_y_true / q.2.sum_energy ∧
          q.1.average_deltaX = q.1.average_x_true - q.1.average_x_predicted ∧
          q.1.average_deltaY = q.1.average_y_true - q.1.average_y_predicted) ∧
      (allZero ext (fillTrack self (prepare self ext st event).Sensors
            ((prepare self ext st event).Sensors.get ⟨k, hk⟩)) →
        q.1.average_x_predicted = p.1.average_x_predicted ∧
          q.1.average_y_predicted = p.1.average_y_predicted ∧
          q.1.average_x_true = p.1.average_x_true ∧
          q.1.average_y_true = p.1.average_y_true ∧
          q.1.average_deltaX = p.1.average_deltaX ∧
          q.1.average_deltaY = p.1.average_deltaY) := by
  obtain ⟨p, h1, h2, _, _, _⟩ := afterLayers_step self ext st event hw k hk
  exact ⟨p, _, h1, h2,
    fun hok h6 => step5Body_averages_high ext _ _ p hok h6,
    fun hok h6 => step5Body_averages_low ext _ _ p hok h6,
    fun hz => step5Body_averages_failed ext _ _ p hz⟩

/-- Witness of C8 as amended: an eight-layer setup without the reference tracker on an event
with hits in layers 1, 2 and 7; the fit of layer 7 does not fail and the averages are -999
after it is handled. -/
theorem running_average_cutoff_witness :
    SensorsWF (State.fresh : State ℚ).Sensors ∧
    ∃ q, afterLayers (sampleAnalyzer 8 false) (sampleExternal id) (State.fresh : State ℚ)
        (sampleEvent false true true true true
          [{ layer := 1, cell := (2, 3), energy := 5 }, { layer := 2, cell := (4, 1), energy := 7 },
           { layer := 7, cell := (1, 1), energy := 2 }])
        ((prepare (sampleAnalyzer 8 false) (sampleExternal id) (State.fresh : State ℚ)
          (sampleEvent false true true true true
            [{ layer := 1, cell := (2, 3), energy := 5 },
             { layer := 2, cell := (4, 1), energy := 7 },
             { layer := 7, cell := (1, 1), energy := 2 }])).Sensors.take 3) = some q ∧
      q.1.average_x_predicted = -999 ∧ q.1.average_y_predicted = -999 ∧
      q.1.average_x_true = -999 ∧ q.1.average_y_true = -999 ∧
      q.1.average_deltaX = -999 ∧ q.1.average_deltaY = -999 := by
  have hw : SensorsWF (State.fresh : State ℚ).Sensors :=
    ⟨List.Pairwise.nil, fun _ h => absurd h (List.not_mem_nil _)⟩
  obtain ⟨p, q, -, h2, h3, -, -⟩ :=
    running_average_cutoff (sampleAnalyzer 8 false) (sampleExternal id) (State.fresh : State ℚ)
      (sampleEvent false true true true true
        [{ layer := 1, cell := (2, 3), energy := 5 }, { layer := 2, cell := (4, 1), energy := 7 },
         { layer := 7, cell := (1, 1), energy := 2 }]) hw 2 (by decide!)
  exact ⟨hw, q, h2, h3 (by decide!) (by decide!)⟩

/-- C8 as stated fails: a six-layer setup with the reference tracker enabled, on an event
with one hit in layer 1.  `Sensors` holds the layers 1, 7, 8 and 9; the track of layer 7 has
the single fit point of layer 1 and its prediction is all-zero, so after layer 7 (index above
6) is handled the averages still hold the values computed at layer 1 (`average_x_true = 2`),
and they still do when `analyze` returns after layer 9. -/
theorem running_average_cutoff_counterexample :
    ((prepare (sampleAnalyzer 6 true) (sampleExternal id) (State.fresh : State ℚ)
        (sampleEvent false true true true true
          [{ layer := 1, cell := (2, 3), energy := 5 }])).Sensors.take 2).map Prod.fst =
      [1, 7] ∧
    (afterLayers (sampleAnalyzer 6 true) (sampleExternal id) (State.fresh : State ℚ)
        (sampleEvent false true true true true [{ layer := 1, cell := (2, 3), energy := 5 }])
        ((prepare (sampleAnalyzer 6 true) (sampleExternal id) (State.fresh : State ℚ)
          (sampleEvent false true true true true
            [{ layer := 1, cell := (2, 3), energy := 5 }])).Sensors.take 2)).map
      (fun q => (q.1.layer, q.1.average_x_true, q.1.average_y_true, q.1.average_x_predicted,
        q.1.average_deltaX)) = some (7, 2, 3, 0, 2) ∧
    (analyze (sampleAnalyzer 6 true) (sampleExternal id) (State.fresh : State ℚ)
        (sampleEvent false true true true true
          [{ layer := 1, cell := (2, 3), energy := 5 }])).map
      (fun r => (r.1, r.2.layer, r.2.average_x_true)) = some (.completed, 9, 2) ∧
    (2 : ℚ) ≠ -999 := by
  refine ⟨?_, ?_, ?_, ?_⟩ <;> decide!

/-- C9 (deviation formula), over the real numbers with `sqrt` the real square root: after a
layer whose fit did not fail is handled, `deltaX = x_true - x_predicted`,
`deltaY = y_true - y_predicted` and `deviation = sqrt(deltaX² + deltaY²)`, where `x_true`,
`y_true` are the layer's hit position and `x_predicted`, `y_predicted` the prediction of its
track; the deviation is nonnegative, and it is 0 exactly when the predicted position equals
the true one. -/
theorem deviation_formula (self : Analyzer ℝ) (ext : External ℝ) (st : State ℝ)
    (event : Event ℝ) (hsqrt : ext.sqrt = Real.sqrt) (hw : SensorsWF st.Sensors) (k : Nat)
    (hk : k < (prepare self ext st event).Sensors.length)
    (hok : ¬ allZero ext (fillTrack self (prepare self ext st event).Sensors
      ((prepare self ext st event).Sensors.get ⟨k, hk⟩))) :
    ∃ q, afterLayers self ext st event ((prepare self ext st event).Sensors.take (k + 1)) =
        some q ∧
      q.1.x_true = (ext.getLabHitPosition ((prepare self ext st event).Sensors.get ⟨k, hk⟩).2).1 ∧
      q.1.y_true = (ext.getLabHitPosition ((prepare self ext st event).Sensors.get ⟨k, hk⟩).2).2 ∧
      q.1.x_predicted = (ext.calculateReferenceXY
        (fillTrack self (prepare self ext st event).Sensors
          ((prepare self ext st event).Sensors.get ⟨k, hk⟩))).1 ∧
      q.1.y_predicted = (ext.calculateReferenceXY
        (fillTrack self (prepare self ext st event).Sensors
          ((prepare self ext st event).Sensors.get ⟨k, hk⟩))).2 ∧
      q.1.deltaX = q.1.x_true - q.1.x_predicted ∧
      q.1.deltaY = q.1.y_true - q.1.y_predicted ∧
      q.1.deviation = Real.sqrt (q.1.deltaX ^ 2 + q.1.deltaY ^ 2) ∧
      0 ≤ q.1.deviation ∧
      (q.1.deviation = 0 ↔ q.1.x_predicted = q.1.x_true ∧ q.1.y_predicted = q.1.y_true) := by
  obtain ⟨p, _, h2, _, _, _⟩ := afterLayers_step self ext st event hw k hk
  obtain ⟨T, hT, _⟩ := step5Body_ok_frame ext _
    ((prepare self ext st event).Sensors.get ⟨k, hk⟩) p hok
  refine ⟨_, h2, ?_⟩
  rw [hT]
  refine ⟨rfl, rfl, rfl, rfl, rfl, rfl, ?_, ?_, ?_⟩
  · simp only [compareLayer, hsqrt]
  · simp only [compareLayer, hsqrt]
    exact Real.sqrt_nonneg _
  · simp only [compareLayer, hsqrt]
    rw [Real.sqrt_eq_zero (by positivity)]
    constructor
    · intro h
      have hx := sq_nonneg ((ext.getLabHitPosition
        ((prepare self ext st event).Sensors.get ⟨k, hk⟩).2).1 -
          (predictLayer ext (fillTrack self (prepare self ext st event).Sensors
            ((prepare self ext st event).Sensors.get ⟨k, hk⟩))
            ((prepare self ext st event).Sensors.get ⟨k, hk⟩) p).1.x_predicted)
      have hy := sq_nonneg ((ext.getLabHitPosition
        ((prepare self ext st event).Sensors.get ⟨k, hk⟩).2).2 -
          (predictLayer ext (fillTrack self (prepare self ext st event).Sensors
            ((prepare self ext st event).Sensors.get ⟨k, hk⟩))
            ((prepare self ext st event).Sensors.get ⟨k, hk⟩) p).1.y_predicted)
      constructor
      · have : ((ext.getLabHitPosition
            ((prepare self ext st event).Sensors.get ⟨k, hk⟩).2).1 -
            (predictLayer ext (fillTrack self (prepare self ext st event).Sensors
              ((prepare self ext st event).Sensors.get ⟨k, hk⟩))
              ((prepare self ext st event).Sensors.get ⟨k, hk⟩) p).1.x_predicted) ^ 2 = 0 := by
          linarith
        have := pow_eq_zero_iff (two_ne_zero) |>.1 this
        linarith
      · have : ((ext.getLabHitPosition
            ((prepare self ext st event).Sensors.get ⟨k, hk⟩).2).2 -
            (predictLayer ext (fillTrack self (prepare self ext st event).Sensors
              ((prepare self ext st event).Sensors.get ⟨k, hk⟩))
              ((prepare self ext st event).Sensors.get ⟨k, hk⟩) p).1.y_predicted) ^ 2 = 0 := by
          linarith
        have := pow_eq_zero_iff (two_ne_zero) |>.1 this
        linarith
    · rintro ⟨hx, hy⟩
      rw [hx, hy]
      simp

/-- Witness of C9: the first layer of a three-layer setup on an event with hits in layers 1
to 4, over the real numbers; the track of layer 1 has two fit points and unit errors. -/
theorem deviation_formula_witness :
    (sampleExternal Real.sqrt).sqrt = Real.sqrt ∧
    SensorsWF (State.fresh : State ℝ).Sensors ∧
    ∃ q, afterLayers (sampleAnalyzer 3 false) (sampleExternal Real.sqrt) (State.fresh : State ℝ)
        (sampleEvent false true true true true sampleHits)
        ((prepare (sampleAnalyzer 3 false) (sampleExternal Real.sqrt) (State.fresh : State ℝ)
          (sampleEvent false true true true true sampleHits)).Sensors.take 1) = some q ∧
      q.1.deltaX = q.1.x_true - q.1.x_predicted ∧
      q.1.deltaY = q.1.y_true - q.1.y_predicted ∧
      q.1.deviation = Real.sqrt (q.1.deltaX ^ 2 + q.1.deltaY ^ 2) ∧
      0 ≤ q.1.deviation ∧
      (q.1.deviation = 0 ↔ q.1.x_predicted = q.1.x_true ∧ q.1.y_predicted = q.1.y_true) := by
  have hw : SensorsWF (State.fresh : State ℝ).Sensors :=
    ⟨List.Pairwise.nil, fun _ h => absurd h (List.not_mem_nil _)⟩
  obtain ⟨q, h1, -, -, -, -, h2, h3, h4, h5, h6⟩ :=
    deviation_formula (sampleAnalyzer 3 false) (sampleExternal Real.sqrt)
      (State.fresh : State ℝ) (sampleEvent false true true true true sampleHits) rfl hw 0
      (by decide!) (fun h => one_ne_zero h.2.2.1)
  exact ⟨rfl, hw, q, h1, h2, h3, h4, h5, h6⟩

/-! ## Step 1: the first hit of a layer -/

theorem IntMap.find_modify {V : Type} (k k' : Int) (f : V → V) (m : IntMap V) :
    IntMap.find k' (IntMap.modify k f m) =
      if k' = k then (IntMap.find k m).map f else IntMap.find k' m := by
  induction m with
  | nil => simp [IntMap.modify, IntMap.find]
  | cons e t ih =>
    obtain ⟨k0, v0⟩ := e
    by_cases h1 : k = k0
    · subst h1
      by_cases h2 : k' = k <;> simp [IntMap.modify, IntMap.find, h2]
    · simp only [IntMap.modify, if_neg h1, IntMap.find, ih]
      by_cases h2 : k' = k0
      · have : k' ≠ k := fun h => h1 (h ▸ h2)
        simp [h2, Ne.symm h1]
      · simp [h2]

theorem fillRechit_find {α : Type} [LinearOrderedField α] (self : Analyzer α) (ext : External α)
    (st : State α) (Rechit : Rechit α) (L : Int) :
    IntMap.find L (fillRechit self ext st Rechit).Sensors =
      if L = Rechit.layer then
        some (SensorHitMap.addHit Rechit 1
          ((IntMap.find L st.Sensors).getD (newLayerSensor self ext st.run st.energy L)))
      else IntMap.find L st.Sensors := by
  simp only [fillRechit]
  rw [IntMap.find_modify]
  by_cases h : L = Rechit.layer
  · subst h
    cases hf : IntMap.find Rechit.layer st.Sensors with
    | none => simp [IntMap.find_insert]
    | some s => simp [hf]
  · simp only [if_neg h]
    cases hf : IntMap.find Rechit.layer st.Sensors with
    | none => simp [IntMap.find_insert, h]
    | some s => rfl

theorem fillRechits_find_some {α : Type} [LinearOrderedField α] (self : Analyzer α)
    (ext : External α) (Rechits : List (Rechit α)) (L : Int) (st : State α)
    (s : SensorHitMap α) (h : IntMap.find L st.Sensors = some s) :
    IntMap.find L (fillRechits self ext st Rechits).Sensors =
      some { s with hits := s.hits ++ hitsOfLayer L Rechits } := by
  induction Rechits generalizing st s with
  | nil => simp [fillRechits, hitsOfLayer, h]
  | cons r t ih =>
    have hstep := fillRechit_find self ext st r L
    rw [h] at hstep
    have hcons : fillRechits self ext st (r :: t) =
        fillRechits self ext (fillRechit self ext st r) t := rfl
    rw [hcons]
    by_cases hr : L = r.layer
    · rw [if_pos hr] at hstep
      rw [ih _ _ hstep]
      simp [hitsOfLayer, SensorHitMap.addHit, hr]
    · rw [if_neg hr] at hstep
      rw [ih _ _ hstep]
      have : ¬ r.layer = L := fun e => hr e.symm
      simp [hitsOfLayer, this]

theorem fillRechits_find_none {α : Type} [LinearOrderedField α] (self : Analyzer α)
    (ext : External α) (Rechits : List (Rechit α)) (L : Int) (st : State α)
    (h : IntMap.find L st.Sensors = none) (hne : hitsOfLayer L Rechits ≠ []) :
    IntMap.find L (fillRechits self ext st Rechits).Sensors =
      some { newLayerSensor self ext st.run st.energy L with
        hits := hitsOfLayer L Rechits } := by
  induction Rechits generalizing st with
  | nil => simp [hitsOfLayer] at hne
  | cons r t ih =>
    have hstep := fillRechit_find self ext st r L
    rw [h] at hstep
    have hcons : fillRechits self ext st (r :: t) =
        fillRechits self ext (fillRechit self ext st r) t := rfl
    rw [hcons]
    by_cases hr : L = r.layer
    · rw [if_pos hr] at hstep
      rw [fillRechits_find_some self ext t L _ _ hstep]
      simp [hitsOfLayer, SensorHitMap.addHit, newLayerSensor, hr]
    · rw [if_neg hr] at hstep
      have hr2 : ¬ r.layer = L := fun e => hr e.symm
      have hne2 : hitsOfLayer L t ≠ [] := by
        simpa [hitsOfLayer, hr2] using hne
      have e1 : (fillRechit self ext st r).run = st.run := rfl
      have e2 : (fillRechit self ext st r).energy = st.energy := rfl
      rw [ih _ hstep hne2, e1, e2]
      simp [hitsOfLayer, hr2]

theorem X0sum_eq_take {α : Type} [LinearOrderedField α] (table : List α) (n : Nat)
    (hn : n ≤ table.length) :
    (List.range n).foldl
        (fun acc _x =>
          match acc, table[_x]? with
          | some a, some x => some (a + x)
          | _, _ => none)
        (some 0) = some (table.take n).sum := by
  induction n with
  | zero => simp
  | succ n ih =>
    have hlt : n < table.length := hn
    rw [List.range_succ, List.foldl_append, ih (le_of_lt hlt), take_succ_get table n hlt]
    simp only [List.foldl_cons, List.foldl_nil, List.getElem?_eq_getElem hlt, List.sum_append,
      List.sum_cons, List.sum_nil, add_zero]
    rfl

theorem constructor_tables {α : Type} [LinearOrderedField α] (iConfig : ParameterSet α) :
    (Position_Resolution_Analyzer iConfig).Layer_Z_Positions = config1Positions ∧
      (Position_Resolution_Analyzer iConfig).Layer_Z_X0s = config1X0Depths := by
  simp [Position_Resolution_Analyzer]

theorem step1_start {α : Type} (st : State α) (event : Event α) :
    (initFitCounters (readRunData st event)).Sensors = st.Sensors ∧
      (initFitCounters (readRunData st event)).run = event.rd.run ∧
      (initFitCounters (readRunData st event)).energy = event.rd.energy := by
  unfold initFitCounters
  split <;> exact ⟨rfl, rfl, rfl⟩

/-- C11 as amended (lazy layer initialisation): for an analyzer built by the constructor,
whatever `nLayers` is configured, and a layer `L` with `1 ≤ L ≤ 8` (the tables have eight
entries): the accumulator created at the first hit of `L` gets `Layer_Z_Positions[L-1]` and
`Layer_Z_X0s[L-1]`, both read inside the tables; the radiation-length sum is the sum of the
first `L` entries of `Layer_Z_X0s`, all read inside the table, and enters the particle energy
through `computeEnergyLoss`; a hit of `L` creates and initialises the accumulator exactly
when `L` is not yet in `Sensors`, and otherwise only adds to the one that is there; every
hit is added with weight 1.  So for an event that starts without `L` in `Sensors` and has a
hit of `L`, step 1 leaves for `L` the accumulator initialised once, holding the event's hits
of `L` in order, each with weight 1. -/
theorem lazy_layer_initialisation {α : Type} [LinearOrderedField α] (iConfig : ParameterSet α)
    (ext : External α) (st : State α) (event : Event α) (L : Int) (h1 : 1 ≤ L) (h8 : L ≤ 8) :
    (∃ z x,
      (L - 1).toNat < (Position_Resolution_Analyzer iConfig).Layer_Z_Positions.length ∧
      (L - 1).toNat < (Position_Resolution_Analyzer iConfig).Layer_Z_X0s.length ∧
      (Position_Resolution_Analyzer iConfig).Layer_Z_Positions[(L - 1).toNat]? = some z ∧
      (Position_Resolution_Analyzer iConfig).Layer_Z_X0s[(L - 1).toNat]? = some x ∧
      (newLayerSensor (Position_Resolution_Analyzer iConfig) ext event.rd.run event.rd.energy
        L).labZ = some z ∧
      (newLayerSensor (Position_Resolution_Analyzer iConfig) ext event.rd.run event.rd.energy
        L).X0 = some x) ∧
    (L.toNat ≤ (Position_Resolution_Analyzer iConfig).Layer_Z_X0s.length ∧
      X0sum (Position_Resolution_Analyzer iConfig).Layer_Z_X0s L =
        some ((Position_Resolution_Analyzer iConfig).Layer_Z_X0s.take L.toNat).sum ∧
      (newLayerSensor (Position_Resolution_Analyzer iConfig) ext event.rd.run event.rd.energy
          L).particleEnergy =
        some (event.rd.energy -
          ext.computeEnergyLoss
            ((Position_Resolution_Analyzer iConfig).Layer_Z_X0s.take L.toNat).sum
            event.rd.energy)) ∧
    (∀ (st1 : State α) (Rechit : Rechit α), Rechit.layer = L →
      (IntMap.find L st1.Sensors = none →
        IntMap.find L (fillRechit (Position_Resolution_Analyzer iConfig) ext st1 Rechit).Sensors =
          some (SensorHitMap.addHit Rechit 1
            (newLayerSensor (Position_Resolution_Analyzer iConfig) ext st1.run st1.energy L))) ∧
      (∀ s, IntMap.find L st1.Sensors = some s →
        IntMap.find L (fillRechit (Position_Resolution_Analyzer iConfig) ext st1 Rechit).Sensors =
          some (SensorHitMap.addHit Rechit 1 s))) ∧
    (IntMap.find L st.Sensors = none → hitsOfLayer L event.Rechits ≠ [] →
      IntMap.find L
          (fillRechits (Position_Resolution_Analyzer iConfig) ext
            (initFitCounters (readRunData st event)) event.Rechits).Sensors =
        some { newLayerSensor (Position_Resolution_Analyzer iConfig) ext event.rd.run
            event.rd.energy L with hits := hitsOfLayer L event.Rechits }) := by
  obtain ⟨hP, hX⟩ := constructor_tables iConfig
  have hlenX : (config1X0Depths : List α).length = 8 := rfl
  have hsum : X0sum (Position_Resolution_Analyzer iConfig).Layer_Z_X0s L =
      some ((Position_Resolution_Analyzer iConfig).Layer_Z_X0s.take L.toNat).sum := by
    unfold X0sum
    apply X0sum_eq_take
    rw [hX, hlenX]
    omega
  refine ⟨?_, ⟨?_, hsum, ?_⟩, ?_, ?_⟩
  · have hlab : (newLayerSensor (Position_Resolution_Analyzer iConfig) ext event.rd.run
        event.rd.energy L).labZ = tableRead (config1Positions : List α) (L - 1) := by
      rw [← hP]; rfl
    have hx0 : (newLayerSensor (Position_Resolution_Analyzer iConfig) ext event.rd.run
        event.rd.energy L).X0 = tableRead (config1X0Depths : List α) (L - 1) := by
      rw [← hX]; rfl
    rw [hlab, hx0, hP, hX]
    have hlenP : (config1Positions : List α).length = 8 := rfl
    have b1 : (L - 1).toNat < (config1Positions : List α).length := by rw [hlenP]; omega
    have b2 : (L - 1).toNat < (config1X0Depths : List α).length := by rw [hlenX]; omega
    have hpos : (0 : Int) ≤ L - 1 := by omega
    refine ⟨_, _, b1, b2, List.getElem?_eq_getElem b1, List.getElem?_eq_getElem b2, ?_, ?_⟩
    · simp only [tableRead, if_pos hpos]
      exact List.getElem?_eq_getElem b1
    · simp only [tableRead, if_pos hpos]
      exact List.getElem?_eq_getElem b2
  · rw [hX, hlenX]
    omega
  · have hpe : (newLayerSensor (Position_Resolution_Analyzer iConfig) ext event.rd.run
        event.rd.energy L).particleEnergy =
        (X0sum (Position_Resolution_Analyzer iConfig).Layer_Z_X0s L).map
          (fun X => event.rd.energy - ext.computeEnergyLoss X event.rd.energy) := rfl
    rw [hpe, hsum]
    rfl
  · intro st1 Rechit hl
    have hf := fillRechit_find (Position_Resolution_Analyzer iConfig) ext st1 Rechit L
    rw [if_pos hl.symm] at hf
    constructor
    · intro hn
      rw [hf, hn]
      rfl
    · intro s hs
      rw [hf, hs]
      rfl
  · intro hn hne
    obtain ⟨e1, e2, e3⟩ := step1_start st event
    have := fillRechits_find_none (Position_Resolution_Analyzer iConfig) ext event.Rechits L
      (initFitCounters (readRunData st event)) (by rw [e1]; exact hn) hne
    rw [this, e2, e3]

/-- Witness of C11 as amended: layer 2 of a three-layer setup on an event with hits in
layers 1 to 4, starting from a fresh analyzer. -/
theorem lazy_layer_initialisation_witness :
    (1 : Int) ≤ 2 ∧ (2 : Int) ≤ 8 ∧
    IntMap.find 2 (State.fresh : State ℚ).Sensors = none ∧
    X0sum (Position_Resolution_Analyzer (sampleParameterSet 3 false : ParameterSet ℚ)).Layer_Z_X0s
      2 = some (3317 / 250) ∧
    (IntMap.find 2
        (fillRechits (Position_Resolution_Analyzer (sampleParameterSet 3 false)) (sampleExternal id)
          (initFitCounters (readRunData (State.fresh : State ℚ)
            (sampleEvent false true true true true sampleHits)))
          (sampleEvent false true true true true (sampleHits : List (Rechit ℚ))).Rechits).Sensors).map
      (fun s => (s.layer, s.labZ, s.X0, s.particleEnergy)) =
      some (2, some (107 / 20), some 7, some 100) ∧
    (IntMap.find 2
        (fillRechits (Position_Resolution_Analyzer (sampleParameterSet 3 false)) (sampleExternal id)
          (initFitCounters (readRunData (State.fresh : State ℚ)
            (sampleEvent false true true true true sampleHits)))
          (sampleEvent false true true true true (sampleHits : List (Rechit ℚ))).Rechits).Sensors).map
      (fun s => s.hits.map (fun h => (h.1.energy, h.2))) = some [(7, 1)] := by
  obtain ⟨-, ⟨-, h2, -⟩, -, h4⟩ :=
    lazy_layer_initialisation (sampleParameterSet 3 false : ParameterSet ℚ) (sampleExternal id)
      (State.fresh : State ℚ) (sampleEvent false true true true true sampleHits) 2 (by decide)
      (by decide)
  have h5 := h4 rfl (fun h => absurd (congrArg List.length h) (by decide!))
  refine ⟨by decide, by decide, rfl, ?_, ?_, ?_⟩
  · rw [h2]
    decide!
  · rw [h5]
    decide!
  · rw [h5]
    decide!

/-- C11 as stated fails.  First, with `nLayers = 9` a hit in layer 9 lies in `1..nLayers`, but
the tables have eight entries: both reads at index 8 and the radiation-length sum over the
indices 0 to 8 leave the tables, so the accumulator of layer 9 gets no defined position,
depth or particle energy.  Second, in an eight-layer setup, after an event that returned at
the reference-tracker test with layer 1 in `Sensors`, the next event's hit of layer 1 finds
that accumulator: no initialisation runs for layer 1 in that event, and the accumulator
holds the hits of both events. -/
theorem lazy_layer_initialisation_counterexample :
    ((1 : Int) ≤ 9 ∧ (9 : Int) ≤ (sampleAnalyzer 9 false : Analyzer ℚ).nLayers) ∧
    tableRead (sampleAnalyzer 9 false : Analyzer ℚ).Layer_Z_Positions (9 - 1) = none ∧
    tableRead (sampleAnalyzer 9 false : Analyzer ℚ).Layer_Z_X0s (9 - 1) = none ∧
    X0sum (sampleAnalyzer 9 false : Analyzer ℚ).Layer_Z_X0s 9 = none ∧
    (fillRechits (sampleAnalyzer 9 false) (sampleExternal id)
        (initFitCounters (readRunData (State.fresh : State ℚ)
          (sampleEvent false true true true true
            [{ layer := 9, cell := (2, 3), energy := 5 }])))
        [{ layer := 9, cell := (2, 3), energy := 5 }]).Sensors.map
      (fun it => (it.1, it.2.labZ, it.2.X0, it.2.particleEnergy)) = [(9, none, none, none)] ∧
    (analyze (sampleAnalyzer 8 true) (sampleExternal id) (State.fresh : State ℚ)
        (sampleEvent false false true true true
          [{ layer := 1, cell := (2, 3), energy := 5 }])).map
      (fun r => (r.1, (IntMap.find 1 r.2.Sensors).isSome)) =
      some (.trackerNotGoodSkip, true) ∧
    (analyze (sampleAnalyzer 8 true) (sampleExternal id) (State.fresh : State ℚ)
        (sampleEvent false false true true true
          [{ layer := 1, cell := (2, 3), energy := 5 }])).map
      (fun r =>
        (fillRechits (sampleAnalyzer 8 true) (sampleExternal id)
          (initFitCounters (readRunData r.2
            (sampleEvent false true true true true
              [{ layer := 1, cell := (4, 1), energy := 2 }])))
          [{ layer := 1, cell := (4, 1), energy := 2 }]).Sensors.map
            (fun it => (it.1, it.2.hits.map (fun h => (h.1.energy, h.2))))) =
      some [(1, [(5, 1), (2, 1)])] := by
  refine ⟨⟨by decide, by decide!⟩, ?_, ?_, ?_, ?_, ?_, ?_⟩ <;> decide!

end PositionResolution
